import Mathlib

/-!
# Reply.io / Google Drive pipeline: a shallow embedding

Sources embedded here:

* `src/replyio.js`                    : `cleanCompanyName`, `pushContacts` and its queue
                                        worker `makeAPICall`, `CheckIfCampaignExists`
* `src/replyio_api/api_auth.js`       : `handleApiError`
* `src/replyio_api/campaigns.js`      : `getCampaignDetailsByName`
* `src/google_drive_API/functions.js` : `drive_downloadCsvAndFilterColumns`,
                                        `filterUniqueEmailsFromCSV`
* `src/index.js`                      : `main`, `processCSVs`, `pushToReplyIo`
* `src/sql/scripts.js`                : `insertContact`, `sql_insertFolder`

Conventions.

* A JavaScript string is a Lean `String`; `undefined` is `none`.
* A promise that rejects, or a statement that throws, is `Except.error`; the
  payload is the text of the error. A promise that may also stay pending for
  ever is a `Settlement`.
* External collaborators (the campaign service, MySQL, Google Drive) are
  functions handed to the model; every theorem quantifies over them.
* Effects are recorded as a list of events in program order; `console.log`
  lines and the counters that only feed them are left out.
-/

namespace ReplyIo

/-! ## Strings -/

/-- Substring test on character lists: `pat` occurs somewhere in the first list. -/
def includesChars : List Char → List Char → Bool
  | [], pat => pat.isPrefixOf []
  | c :: cs, pat => pat.isPrefixOf (c :: cs) || includesChars cs pat

/-- The method `String.prototype.includes` of JavaScript, `s.includes(pat)`. -/
def includes (s pat : String) : Bool :=
  includesChars s.data pat.data

/-! ## Contact dispatcher (`src/replyio.js`, `pushContacts`) -/

/-- One entry of `contactData.customFields`. -/
structure CustomField where
  key : String
  value : Option String
  deriving DecidableEq, Repr

/-- The object `contactData` built at `src/replyio.js:139-169`; the fields
    copied from a row may be `undefined`. -/
structure ContactData where
  campaignId : Option Nat
  email : Option String
  firstName : String
  lastName : String
  company : Option String
  city : Option String
  state : Option String
  country : Option String
  timeZoneId : String
  title : String
  notes : String
  phone : String
  linkedInProfile : String
  customFields : List CustomField
  deriving DecidableEq, Repr

/-- The expression `contactData.customFields.find((field) => field.key === key)?.value`. -/
def ContactData.customField (d : ContactData) (key : String) : Option String :=
  match d.customFields.find? (fun field => field.key == key) with
  | some field => field.value
  | none => none

/-- Settlement of the promise returned by `createAndPushContactToCampaign`
    (`src/replyio_api/actions.js:20-26`): it resolves, or it rejects with a
    string (the template literal thrown at line 24). -/
inductive PushResult where
  | resolved
  | rejected (error : String)
  deriving DecidableEq, Repr

/-- What the queue worker of `pushContacts` does, in program order. -/
inductive DispatchEvent where
  /-- A call `this.actions.createAndPushContactToCampaign(contactData)` (line 58). -/
  | push (contactData : ContactData)
  /-- A call `sql_query.insertContact(company, email, mailingAddress, secondaryEmail)` (line 66). -/
  | insertContact (name business_email_address mailing_address
      category_survey_email_address : Option String)
  /-- A timer of the given number of milliseconds (lines 79 and 93). -/
  | delay (ms : Nat)
  /-- The queue callback `cb(null)` (`none`) or `cb(error)` (`some error`). -/
  | cb (error : Option String)
  deriving DecidableEq, Repr

/-- The constant `maxRetries` (`src/replyio.js:52`). -/
def maxRetries : Nat := 3

/-- The closure `makeAPICall(retriesLeft)` of `src/replyio.js:56-102`, run to
    the point where it calls `cb`.

    `service k` is how the campaign service settles the `k`-th call of
    `createAndPushContactToCampaign` (counted from 0 over the whole run);
    `calls` is the number of calls made before this one.

    The recursion mirrors line 95, `makeAPICall(retriesLeft - 1)`, which is
    reached only under `retriesLeft > 0` (line 84). -/
def makeAPICall (service : Nat → PushResult) (contactData : ContactData) :
    (retriesLeft : Nat) → (calls : Nat) → List DispatchEvent
  | retriesLeft, calls =>
    DispatchEvent.push contactData ::
      match service calls with
      | PushResult.resolved =>
        -- `.then` branch, lines 59-82
        [ DispatchEvent.insertContact contactData.company contactData.email
            (contactData.customField "Mailing address")
            (contactData.customField "Secondary Email"),
          DispatchEvent.delay 11000,
          DispatchEvent.cb none ]
      | PushResult.rejected error =>
        -- `.catch` branch, lines 83-101
        match retriesLeft with
        | retriesLeftMinusOne + 1 =>
          -- `retriesLeft > 0`
          if includes error "Contact is already in this sequence" then
            [DispatchEvent.cb (some error)]
          else
            DispatchEvent.delay 11000 ::
              makeAPICall service contactData retriesLeftMinusOne (calls + 1)
        | 0 =>
          [DispatchEvent.cb (some error)]

/-- The process function given to the queue (`src/replyio.js:55-104`): it
    starts `makeAPICall(maxRetries)`. -/
def pushContacts.worker (service : Nat → PushResult) (contactData : ContactData)
    (calls : Nat) : List DispatchEvent :=
  makeAPICall service contactData maxRetries calls

/-- Number of calls of the push capability in a trace. -/
def pushCount (trace : List DispatchEvent) : Nat :=
  (trace.filter (fun e => match e with | DispatchEvent.push _ => true | _ => false)).length

/-- Number of calls of `insertContact` in a trace. -/
def insertContactCount (trace : List DispatchEvent) : Nat :=
  (trace.filter (fun e =>
    match e with | DispatchEvent.insertContact _ _ _ _ => true | _ => false)).length

/-- Number of timers in a trace. -/
def delayCount (trace : List DispatchEvent) : Nat :=
  (trace.filter (fun e => match e with | DispatchEvent.delay _ => true | _ => false)).length

/-- The callbacks `cb(..)` made in a trace, in order. -/
def callbacks (trace : List DispatchEvent) : List (Option String) :=
  trace.filterMap (fun e => match e with | DispatchEvent.cb error => some error | _ => none)

/-! ## Rows -/

/-- A row as `Papa.parse(.., { header: true })` yields it: an object whose own
    properties are column names with string values, in insertion order.
    Column names that shadow a method of `Object.prototype` (a column called
    `hasOwnProperty`) are not modelled. -/
structure Row where
  props : List (String × String)
  deriving DecidableEq, Repr

/-- The empty object `{}`. -/
def Row.empty : Row := ⟨[]⟩

/-- The value `row[column]`; `none` is `undefined`. -/
def Row.get (row : Row) (column : String) : Option String :=
  row.props.lookup column

/-- The test `row.hasOwnProperty(column)`. -/
def Row.hasOwnProperty (row : Row) (column : String) : Bool :=
  (row.get column).isSome

/-- Assignment of a property in a property list: an existing property keeps
    its place, a new one goes last. -/
def setProp : List (String × String) → String → String → List (String × String)
  | [], column, value => [(column, value)]
  | (c, v) :: rest, column, value =>
    if column == c then (c, value) :: rest else (c, v) :: setProp rest column value

/-- The assignment `row[column] = value`. -/
def Row.set (row : Row) (column value : String) : Row :=
  ⟨setProp row.props column value⟩

/-- The column names of a row: `Object.keys(row)`. -/
def Row.keys (row : Row) : List String :=
  row.props.map Prod.fst

/-! ## Row filter (`src/google_drive_API/functions.js`, `drive_downloadCsvAndFilterColumns`) -/

/-- The city names of `functions.js:94-115`, before `.map((city) => city.toLowerCase())`. -/
def cityNames : List String :=
  [ "Bethel", "Black Rock", "Bridgeport", "Cos Cob", "Danbury", "Darien", "Fairfield",
    "Georgetown", "Greenwich", "New Canaan", "Norwalk", "Redding", "Ridgefield", "Rowayton",
    "Sandy Hook", "Southport", "Stamford", "Stamford North", "Weston", "Westport", "Wilton" ]

/-- The array `cities` of `functions.js:94-116`; `toLowerCase` stands for
    `String.prototype.toLowerCase`. -/
def cities (toLowerCase : String → String) : List String :=
  cityNames.map (fun city => toLowerCase city)

/-- The array `columnsToKeep` of `functions.js:118-131`. -/
def columnsToKeep : List String :=
  [ "name", "business_type", "status", "billingstreet", "billingcity", "billingcountry",
    "billingpostalcode", "billingstate", "business_email_address", "mailing_address",
    "woman_owned_organization", "category_survey_email_address" ]

/-- The predicate given to `.filter` at `functions.js:135-139`. -/
def cityFilter (toLowerCase : String → String) (row : Row) : Bool :=
  match row.get "billingcity" with
  | some billingcity => (cities toLowerCase).contains (toLowerCase billingcity)
  | none => false

/-- The function given to `.map` at `functions.js:140-146`: a fresh object
    that receives, column by column, the kept columns the row has. -/
def pruneColumns (row : Row) : Row :=
  columnsToKeep.foldl
    (fun filteredRow column =>
      match row.get column with
      | some value => filteredRow.set column value
      | none => filteredRow)
    Row.empty

/-- The value `filteredData` of `functions.js:134-146`, from `parsedData.data`. -/
def filteredData (toLowerCase : String → String) (parsedRows : List Row) : List Row :=
  (parsedRows.filter (fun row => cityFilter toLowerCase row)).map (fun row => pruneColumns row)

/-- ASCII lower-casing, which agrees with `toLowerCase` on ASCII text. -/
def asciiLower (s : String) : String :=
  ⟨s.data.map Char.toLower⟩

/-! ## Duplicate classifier (`src/google_drive_API/functions.js`, `filterUniqueEmailsFromCSV`) -/

/-- The two tables the classifier queries. -/
inductive Table where
  | zoho_contacts
  | sots_contacts
  deriving DecidableEq, Repr

/-- The two address columns of a row. -/
inductive EmailField where
  | business_email_address
  | category_survey_email_address
  deriving DecidableEq, Repr

/-- What `mysql.query` hands to its callback `(err, result)` for a
    `SELECT COUNT(*) AS count ..`: an error, or the result rows, of which the
    classifier reads `result[0].count` (`none` when there is no first row). -/
inductive QueryResult where
  | err (error : String)
  | result (count : Option Nat)
  deriving DecidableEq, Repr

/-- The expression `result && result[0] ? result[0].count > 0 : false`
    (`functions.js:213`, `225`, `244`, `256`). -/
def QueryResult.found : QueryResult → Bool
  | QueryResult.result (some count) => decide (count > 0)
  | QueryResult.result none => false
  | QueryResult.err _ => false

/-- The error with which the promise around a query rejects, if it does:
    `if (err) return reject(err)`. -/
def QueryResult.rejection : QueryResult → Option String
  | QueryResult.err error => some error
  | QueryResult.result _ => none

/-- The answers of the store to the queries of one row: for the address taken
    from the given column, queried in the given table. -/
abbrev Lookup := EmailField → Table → String → QueryResult

/-- The array `predefinedStrings` of `functions.js:184-200`. -/
def predefinedStrings : List String :=
  [ "ctsecstate", "efile", "generalhelpct", "menacorpservice", "rasi.com", "taxcenterct",
    "lissette_trrs", "agenciadxr", "kellysouzadmv", "taxdmv", "durangoagency.com",
    "zenbusiness.com", "musillilaw.com", "filing", ".gov" ]

/-- The test `predefinedStrings.some((str) => email.includes(str))`. -/
def containsPredefinedString (email : String) : Bool :=
  predefinedStrings.any (fun str => includes email str)

/-- A row after line 271: the row object with its two derived flags. -/
structure ClassifiedRow where
  row : Row
  email_exists_in_db : Bool
  secondary_email_exists_in_db : Bool
  deriving DecidableEq, Repr

/-- How the worker of `emailCheckQueue` ends for a row. -/
inductive WorkerOutcome where
  /-- The `catch` of line 283 ran: `cb(err)`; the row has no flags and was not pushed. -/
  | failed (err : String)
  /-- Line 282 ran: `cb()`; `pushed` says whether `uniqueRows.push(row)` ran at line 274. -/
  | classified (row : ClassifiedRow) (pushed : Bool)
  deriving DecidableEq, Repr

/-- One run of the worker: the queries it issued, in order, and how it ended. -/
structure WorkerRun where
  queries : List (Table × String)
  outcome : WorkerOutcome
  deriving DecidableEq, Repr

/-- The `TypeError` of reading `.includes` of `undefined` (lines 202, 204). -/
def undefinedIncludesError : String :=
  "TypeError: Cannot read properties of undefined (reading 'includes')"

/-- The `TypeError` of assigning to a `const` binding: `businessEmail` and
    `categoryEmail` are declared `const` at lines 173-174 and assigned at
    lines 202 and 204. -/
def constAssignmentError : String :=
  "TypeError: Assignment to constant variable."

/-- The two queries of lines 207-231 or 238-262 for a non-empty address. -/
def addressQueries (email : String) : List (Table × String) :=
  if email != "" then [(Table.zoho_contacts, email), (Table.sots_contacts, email)] else []

/-- The entry of `results.zoho` or `results.sots` for an address: the default
    `true` for an empty address (lines 177, 233-234, 264-265), the answer of
    the query otherwise. -/
def resultEntry (lookup : Lookup) (field : EmailField) (table : Table) (email : String) : Bool :=
  if email != "" then (lookup field table email).found else true

/-- The first rejection among the promises of `checksToPerform`, with which
    `await Promise.all(checksToPerform)` throws (line 268). -/
def firstRejection (lookup : Lookup) (businessEmail categoryEmail : String) : Option String :=
  (((addressQueries businessEmail).map
      (fun q => lookup EmailField.business_email_address q.1 q.2)) ++
    ((addressQueries categoryEmail).map
      (fun q => lookup EmailField.category_survey_email_address q.1 q.2))).findSome?
    QueryResult.rejection

/-- The process function of `emailCheckQueue` (`functions.js:172-286`) on one row. -/
def emailCheckWorker (lookup : Lookup) (row : Row) : WorkerRun :=
  -- lines 173-174
  match row.get "business_email_address" with
  | none => ⟨[], WorkerOutcome.failed undefinedIncludesError⟩
  | some businessEmail =>
    -- line 202: the assignment `businessEmail = ""` throws
    if containsPredefinedString businessEmail then
      ⟨[], WorkerOutcome.failed constAssignmentError⟩
    else
      match row.get "category_survey_email_address" with
      | none => ⟨[], WorkerOutcome.failed undefinedIncludesError⟩
      | some categoryEmail =>
        -- line 204: the assignment `categoryEmail = ""` throws
        if containsPredefinedString categoryEmail then
          ⟨[], WorkerOutcome.failed constAssignmentError⟩
        else
          -- lines 206-266
          let queries := addressQueries businessEmail ++ addressQueries categoryEmail
          -- line 268
          match firstRejection lookup businessEmail categoryEmail with
          | some err => ⟨queries, WorkerOutcome.failed err⟩
          | none =>
            -- lines 270-271
            let email_exists_in_db :=
              resultEntry lookup EmailField.business_email_address Table.zoho_contacts
                businessEmail ||
              resultEntry lookup EmailField.business_email_address Table.sots_contacts
                businessEmail
            let secondary_email_exists_in_db :=
              resultEntry lookup EmailField.category_survey_email_address Table.zoho_contacts
                categoryEmail ||
              resultEntry lookup EmailField.category_survey_email_address Table.sots_contacts
                categoryEmail
            -- line 274
            ⟨queries,
              WorkerOutcome.classified ⟨row, email_exists_in_db, secondary_email_exists_in_db⟩
                (!(email_exists_in_db && secondary_email_exists_in_db))⟩

/-- The rows a worker run adds to `uniqueRows`. -/
def WorkerRun.pushedRows (run : WorkerRun) : List ClassifiedRow :=
  match run.outcome with
  | WorkerOutcome.classified row true => [row]
  | _ => []

/-- Runs of the worker over `parsedData.data` from position `index` on;
    `lookups i` gives the answers of the store to the queries of row `i`. -/
def uniqueRowsFrom (lookups : Nat → Lookup) : Nat → List Row → List ClassifiedRow
  | _, [] => []
  | index, row :: rest =>
    (emailCheckWorker (lookups index) row).pushedRows ++ uniqueRowsFrom lookups (index + 1) rest

/-- The array `uniqueRows` of `filterUniqueEmailsFromCSV` (`functions.js:160-302`)
    once every row of `parsedData.data` went through the worker. The workers
    run up to 50 at a time and push in the order in which they finish; the
    rows are listed here in input order, and the theorems below speak of
    membership only. -/
def filterUniqueEmailsFromCSV (lookups : Nat → Lookup) (parsedRows : List Row) :
    List ClassifiedRow :=
  uniqueRowsFrom lookups 0 parsedRows

/-- The property `row.email_exists_in_db` when the worker has ended: the value
    set at line 270, or `undefined` (`none`) when the worker failed before it. -/
def WorkerOutcome.email_exists_in_db : WorkerOutcome → Option Bool
  | WorkerOutcome.classified row _ => some row.email_exists_in_db
  | WorkerOutcome.failed _ => none

/-- The property `row.secondary_email_exists_in_db` when the worker has ended:
    the value set at line 271, or `undefined` (`none`) when the worker failed
    before it. -/
def WorkerOutcome.secondary_email_exists_in_db : WorkerOutcome → Option Bool
  | WorkerOutcome.classified row _ => some row.secondary_email_exists_in_db
  | WorkerOutcome.failed _ => none

/-! ## Promises -/

/-- How a promise ends: resolved, rejected, or left pending for ever. -/
inductive Settlement (α : Type) where
  | resolved (value : α)
  | rejected (error : String)
  | pending
  deriving DecidableEq, Repr

/-! ## Run orchestrator (`src/index.js`) -/

/-- An entry `{ name, id }` of what `drive_listFolders` or `drive_listCSVFiles`
    resolves with. -/
structure DriveItem where
  id : String
  name : String
  deriving DecidableEq, Repr

/-- An entry `{ id, name, processed }` of `chk_folders`, what `sql_checkFolders`
    resolves with (`src/sql/scripts.js:28`). -/
structure Folder where
  id : String
  name : String
  processed : Bool
  deriving DecidableEq, Repr

/-- The value `campaignResult` that `CheckIfCampaignExists` resolves with
    (`src/replyio.js:186-196`), split the way `processCSVs` inspects it
    (`src/index.js:89-148`). -/
inductive CampaignResult where
  /-- The value `false`: the campaign was not found. -/
  | notFound
  /-- An object; `id` is its property `id` when it is a number. -/
  | object (id : Option Nat)
  /-- A string. -/
  | text (s : String)
  /-- The value `null`, for which `typeof` is `"object"`. -/
  | null
  /-- Any other value (`true`, a number): no branch of lines 89-148 applies. -/
  | other
  deriving DecidableEq, Repr

/-- The calls the orchestrator makes, in program order; `processCSVs` marks
    the entry into that function, the others are calls to collaborators. -/
inductive Call where
  | google_drive_auth
  | drive_listFolders (folderId : String)
  | sql_checkFolders (folders : List DriveItem)
  | processCSVs (folderId folderName : String)
  | drive_listCSVFiles (folderId : String)
  | sql_checkFileExists (folderId fileId : String)
  | drive_downloadCsvAndFilterColumns (fileId fileName : String)
  | CheckIfCampaignExists (campaignName : String)
  | CreateNewCampaign (campaignName : String)
  | filterUniqueEmailsFromCSV (fileName : String)
  | pushContacts (uniqueRows : List ClassifiedRow) (campaignId : Option Nat)
  | sql_insertProcessedFile (folderId fileId : String)
  | sql_insertFolder (folderId folderName : String)
  deriving DecidableEq, Repr

/-- The calls made so far. -/
abbrev Trace := List Call

/-- The collaborators of the orchestrator. Each answers a call given the
    calls made before it, so an answer may depend on everything that
    happened earlier in the run; `Except.error` is a rejected promise.
    The promises of `filterUniqueEmailsFromCSV` and `pushContacts` are built
    around a queue and may stay pending for ever (`Settlement.pending`); the
    other calls wrap a single callback of a library and are taken to settle. -/
structure World where
  google_drive_auth : Trace → Except String Unit
  drive_listFolders : Trace → String → Except String (List DriveItem)
  sql_checkFolders : Trace → List DriveItem → Except String (List Folder)
  drive_listCSVFiles : Trace → String → Except String (List DriveItem)
  sql_checkFileExists : Trace → String → String → Except String Bool
  /-- The download, filtering and writing done inside
      `drive_downloadCsvAndFilterColumns` (`functions.js:92-152`). -/
  downloadAndFilter : Trace → String → String → Except String Unit
  CheckIfCampaignExists : Trace → String → Except String CampaignResult
  /-- The `id` of the created campaign, `data.id` (`replyio.js:204`). -/
  CreateNewCampaign : Trace → String → Except String (Option Nat)
  filterUniqueEmailsFromCSV : Trace → String → Settlement (List ClassifiedRow)
  pushContacts : Trace → List ClassifiedRow → Option Nat → Settlement Unit
  sql_insertProcessedFile : Trace → String → String → Except String Unit
  sql_insertFolder : Trace → String → String → Except String Unit

/-- The object `{ processed, filePath }` that `drive_downloadCsvAndFilterColumns`
    resolves with. -/
structure DownloadResult where
  processed : Bool
  filePath : String
  deriving DecidableEq, Repr

/-- The settlement of `drive_downloadCsvAndFilterColumns(fileId, fileName)`
    (`functions.js:89-158`): `resolve({ processed: true, filePath: csvPath })`
    at line 153, or the `reject` of line 155. -/
def drive_downloadCsvAndFilterColumns (w : World) (t : Trace) (fileId fileName : String) :
    Except String DownloadResult :=
  match w.downloadAndFilter t fileId fileName with
  | Except.ok () =>
    Except.ok { processed := true, filePath := "csv_storage/filtered_" ++ fileName }
  | Except.error error =>
    Except.error ("An error occurred while downloading and filtering csv file: " ++ error)

/-- A world in which the promises of `filterUniqueEmailsFromCSV` and
    `pushContacts` always settle. -/
def World.settles (w : World) : Prop :=
  (∀ t fileName, w.filterUniqueEmailsFromCSV t fileName ≠ Settlement.pending) ∧
  (∀ t uniqueRows campaignId, w.pushContacts t uniqueRows campaignId ≠ Settlement.pending)

/-- The function `pushToReplyIo` (`src/index.js:179-187`): the trace after it
    and the promise it returns, which resolves with `undefined` (`none`) or
    with the string of line 185, or stays pending when one of the two awaited
    promises does. -/
def pushToReplyIo (w : World) (fileName : String) (campaignId : Option Nat) (t : Trace) :
    Trace × Settlement (Option String) :=
  let t1 := t ++ [Call.filterUniqueEmailsFromCSV fileName]
  match w.filterUniqueEmailsFromCSV t fileName with
  | Settlement.rejected error =>
    (t1, Settlement.resolved (some ("Failed to push contacts to replyio: " ++ error)))
  | Settlement.pending => (t1, Settlement.pending)
  | Settlement.resolved uniqueRows =>
    let t2 := t1 ++ [Call.pushContacts uniqueRows campaignId]
    match w.pushContacts t1 uniqueRows campaignId with
    | Settlement.rejected error =>
      (t2, Settlement.resolved (some ("Failed to push contacts to replyio: " ++ error)))
    | Settlement.pending => (t2, Settlement.pending)
    | Settlement.resolved () => (t2, Settlement.resolved none)

/-- Lines 85-148 of `src/index.js`: look the campaign up and create it when it
    is not found. The result is the variable `campaignId` (`none` is
    `undefined`), or the error thrown. -/
def processCSVs.campaign (w : World) (campaignName : String) (t : Trace) :
    Trace × Except String (Option Nat) :=
  let t1 := t ++ [Call.CheckIfCampaignExists campaignName]
  match w.CheckIfCampaignExists t campaignName with
  | Except.error error => (t1, Except.error error)
  | Except.ok CampaignResult.notFound =>
    -- line 89: `campaignResult === false`
    let t2 := t1 ++ [Call.CreateNewCampaign campaignName]
    match w.CreateNewCampaign t1 campaignName with
    | Except.ok campaignId => (t2, Except.ok campaignId)
    | Except.error error =>
      (t2, Except.error ("Error: Failed to create a new campaign: " ++ error))
  | Except.ok (CampaignResult.object (some id)) =>
    -- line 143: `typeof campaignResult === "object" && campaignResult.id`
    if id != 0 then (t1, Except.ok (some id)) else (t1, Except.ok none)
  | Except.ok (CampaignResult.object none) => (t1, Except.ok none)
  | Except.ok CampaignResult.null =>
    (t1, Except.error "TypeError: Cannot read properties of null (reading 'id')")
  | Except.ok (CampaignResult.text s) =>
    -- line 146: `typeof campaignResult === "string"`
    (t1, Except.error ("Error: Failed due to: " ++ s))
  | Except.ok CampaignResult.other => (t1, Except.ok none)

/-- Line 153 of `src/index.js`: `await sql_query.sql_insertProcessedFile(..)`. -/
def processCSVs.markFile (w : World) (folder : Folder) (file : DriveItem) (t : Trace) :
    Trace × Settlement Unit :=
  let t1 := t ++ [Call.sql_insertProcessedFile folder.id file.id]
  match w.sql_insertProcessedFile t folder.id file.id with
  | Except.error error => (t1, Settlement.rejected error)
  | Except.ok () => (t1, Settlement.resolved ())

/-- The `try` block of lines 73-154 of `src/index.js` for one file: the trace
    after it, and how it ends: it runs to its end (`resolved`), it is left
    with an error (`rejected`), or it waits for ever at the `await` of line
    150 (`pending`). -/
def processCSVs.tryFile (w : World) (folder : Folder) (file : DriveItem) (t : Trace) :
    Trace × Settlement Unit :=
  -- line 75
  let t1 := t ++ [Call.sql_checkFileExists folder.id file.id]
  match w.sql_checkFileExists t folder.id file.id with
  | Except.error error => (t1, Settlement.rejected error)
  | Except.ok true => (t1, Settlement.resolved ())
  | Except.ok false =>
    -- line 78
    let t2 := t1 ++ [Call.drive_downloadCsvAndFilterColumns file.id file.name]
    match drive_downloadCsvAndFilterColumns w t1 file.id file.name with
    | Except.error error => (t2, Settlement.rejected error)
    | Except.ok result =>
      -- lines 80-148
      match processCSVs.campaign w (folder.name ++ "_" ++ file.name) t2 with
      | (t3, Except.error error) => (t3, Settlement.rejected error)
      | (t3, Except.ok campaignId) =>
        if result.processed then
          -- line 150: the value that `pushToReplyIo` returns is dropped
          match pushToReplyIo w file.name campaignId t3 with
          | (t4, Settlement.pending) => (t4, Settlement.pending)
          | (t4, _) => processCSVs.markFile w folder file t4
        else processCSVs.markFile w folder file t3

/-- One turn of the loop of lines 72-158: the `try` block, whose error, if
    any, is logged by the `catch` of line 155. -/
def processCSVs.file (w : World) (folder : Folder) (file : DriveItem) (t : Trace) : Trace :=
  (processCSVs.tryFile w folder file t).1

/-- The loop of lines 72-158 over `csv_files`: the turns follow one another
    until one of them waits for ever. -/
def processCSVs.files (w : World) (folder : Folder) :
    List DriveItem → Trace → Trace × Settlement Unit
  | [], t => (t, Settlement.resolved ())
  | file :: rest, t =>
    match processCSVs.tryFile w folder file t with
    | (t1, Settlement.pending) => (t1, Settlement.pending)
    | (t1, _) => processCSVs.files w folder rest t1

/-- The function `processCSVs` (`src/index.js:67-162`): the trace after it and
    the promise it returns, which resolves with `undefined` (`none`) or with
    the error caught at line 159, or stays pending. -/
def processCSVs (w : World) (folder : Folder) (t : Trace) :
    Trace × Settlement (Option String) :=
  let t0 := t ++ [Call.processCSVs folder.id folder.name]
  -- line 69
  let t1 := t0 ++ [Call.drive_listCSVFiles folder.id]
  match w.drive_listCSVFiles t0 folder.id with
  | Except.error error => (t1, Settlement.resolved (some error))
  | Except.ok csv_files =>
    match processCSVs.files w folder csv_files t1 with
    | (t2, Settlement.pending) => (t2, Settlement.pending)
    | (t2, _) => (t2, Settlement.resolved none)

/-- Line 36 of `src/index.js`: `await sql_query.sql_insertFolder(..)`. -/
def main.markFolder (w : World) (folder : Folder) (t : Trace) : Trace × Settlement Unit :=
  let t1 := t ++ [Call.sql_insertFolder folder.id folder.name]
  match w.sql_insertFolder t folder.id folder.name with
  | Except.error error => (t1, Settlement.rejected error)
  | Except.ok () => (t1, Settlement.resolved ())

/-- The `try` block of lines 33-36 of `src/index.js` for one folder: the trace
    after it, and how it ends: it runs to its end, it is left with the error
    of `sql_insertFolder`, or it waits for ever at the `await` of line 34. -/
def main.tryFolder (w : World) (folder : Folder) (t : Trace) : Trace × Settlement Unit :=
  if !folder.processed then
    -- line 34
    match processCSVs w folder t with
    | (t1, Settlement.pending) => (t1, Settlement.pending)
    | (t1, _) => main.markFolder w folder t1
  else main.markFolder w folder t

/-- One turn of the loop of `main` (`src/index.js:32-40`); an error of
    `sql_insertFolder` is logged by the `catch` of line 37. -/
def main.folder (w : World) (folder : Folder) (t : Trace) : Trace :=
  (main.tryFolder w folder t).1

/-- The loop of `main` over `chk_folders` (`src/index.js:32-40`): the turns
    follow one another until one of them waits for ever. -/
def main.folders (w : World) : List Folder → Trace → Trace
  | [], t => t
  | folder :: rest, t =>
    match main.tryFolder w folder t with
    | (t1, Settlement.pending) => t1
    | (t1, _) => main.folders w rest t1

/-- The function `main` (`src/index.js:21-46`); `SOTS_folderId` is the
    environment variable of line 10. The result is the trace of the run. -/
def main (w : World) (SOTS_folderId : String) : Trace :=
  -- line 23
  let t1 := [Call.google_drive_auth]
  match w.google_drive_auth [] with
  | Except.error _ => t1
  | Except.ok () =>
    -- line 28
    let t2 := t1 ++ [Call.drive_listFolders SOTS_folderId]
    match w.drive_listFolders t1 SOTS_folderId with
    | Except.error _ => t2
    | Except.ok mainFolders =>
      -- line 30
      let t3 := t2 ++ [Call.sql_checkFolders mainFolders]
      match w.sql_checkFolders t2 mainFolders with
      | Except.error _ => t3
      | Except.ok chk_folders => main.folders w chk_folders t3

/-- The calls of `sql_insertFolder` in a trace, in order. -/
def insertFolderCalls (t : Trace) : List (String × String) :=
  t.filterMap (fun call =>
    match call with
    | Call.sql_insertFolder folderId folderName => some (folderId, folderName)
    | _ => none)

/-! ## Company names (`src/replyio.js`, `cleanCompanyName`) -/

/-- The array `patterns` of `src/replyio.js:21-39`. -/
def cleanCompanyName.patterns : List String :=
  [ ", LLC", " LLC", " Limited Liability Company", " L.L.C.", ", Inc.", " Inc", ", INC",
    " Inc.", ", PLLC", " PLLC", ", CORP", " Ltd.", " Liability Co.", " INCORPORATED",
    " Corporation", " Limited Liability Partnership", " P.L.L.C" ]

/-- The line terminators of a regular expression: LF, CR, U+2028 and U+2029. -/
def isLineTerminator (c : Char) : Bool :=
  c.val == 10 || c.val == 13 || c.val == 0x2028 || c.val == 0x2029

/-- The white space class of a regular expression (what `\s` matches). -/
def isWhiteSpace (c : Char) : Bool :=
  c.val == 9 || c.val == 10 || c.val == 11 || c.val == 12 || c.val == 13 || c.val == 32 ||
  c.val == 0xA0 || c.val == 0x1680 || (0x2000 ≤ c.val && c.val ≤ 0x200A) ||
  c.val == 0x2028 || c.val == 0x2029 || c.val == 0x202F || c.val == 0x205F ||
  c.val == 0x3000 || c.val == 0xFEFF

/-- The word class of a regular expression (what `\w` matches): `[A-Za-z0-9_]`. -/
def isWordChar (c : Char) : Bool :=
  c.isAlphanum || c == '_'

/-- One character of a pattern of `cleanCompanyName.patterns`, read as the
    regular expression `new RegExp(pattern, "gi")` reads it, against one
    character of the subject: `.` matches any character but a line
    terminator; a letter, a space or a comma matches itself, letters without
    regard to case (the patterns hold no other characters). -/
def regExpCharMatches (p c : Char) : Bool :=
  if p == '.' then !isLineTerminator c else p.toUpper == c.toUpper

/-- The regular expression of a pattern matches at the start of the subject. -/
def regExpMatchesAt : List Char → List Char → Bool
  | [], _ => true
  | _ :: _, [] => false
  | p :: ps, c :: cs => regExpCharMatches p c && regExpMatchesAt ps cs

/-- Global replacement by the empty string, scanning left to right: `skip`
    characters of the current match are still to be dropped; out of a match,
    a position where `matchesAt` holds starts a match of `length` characters
    (`length > 0`), any other character is kept. -/
def removeMatches (matchesAt : List Char → Bool) (length : Nat) : Nat → List Char → List Char
  | _, [] => []
  | skip + 1, _ :: cs => removeMatches matchesAt length skip cs
  | 0, c :: cs =>
    if matchesAt (c :: cs) then removeMatches matchesAt length (length - 1) cs
    else c :: removeMatches matchesAt length 0 cs

/-- The statement `cleanedName.replace(new RegExp(pattern, "gi"), "")`
    (`src/replyio.js:42`) for a pattern of `cleanCompanyName.patterns`. -/
def replaceRegExp (cleanedName : List Char) (pattern : String) : List Char :=
  removeMatches (regExpMatchesAt pattern.data) pattern.length 0 cleanedName

/-- The replacement of line 44, `replace(/\w\S*/g, (w) => w.charAt(0).toUpperCase()
    + w.substr(1).toLowerCase())`, scanning left to right. Out of a match
    (`none`), a word character starts a match; in a match (`some (first, rest)`,
    `rest` reversed), the match goes on up to the next white space or the end. -/
def titleCase (toLowerCase : String → String) :
    Option (Char × List Char) → List Char → List Char
  | none, [] => []
  | some (first, rest), [] => first.toUpper :: (toLowerCase ⟨rest.reverse⟩).data
  | none, c :: cs =>
    if isWordChar c then titleCase toLowerCase (some (c, [])) cs
    else c :: titleCase toLowerCase none cs
  | some (first, rest), c :: cs =>
    if isWhiteSpace c then
      first.toUpper :: (toLowerCase ⟨rest.reverse⟩).data ++ c :: titleCase toLowerCase none cs
    else titleCase toLowerCase (some (first, c :: rest)) cs

/-- The replacement of line 45, `replace(/[.,\s]+$/, "")`: the longest run of
    periods, commas and white space at the end is dropped. -/
def trimTrailing (cleanedName : List Char) : List Char :=
  (cleanedName.reverse.dropWhile (fun c => c == '.' || c == ',' || isWhiteSpace c)).reverse

/-- The method `cleanCompanyName(name)` (`src/replyio.js:20-46`);
    `toLowerCase` stands for `String.prototype.toLowerCase`. Characters are
    Unicode code points, so the model is that of the code on names without
    characters outside the Basic Multilingual Plane. -/
def cleanCompanyName (toLowerCase : String → String) (name : String) : String :=
  ⟨trimTrailing
    (titleCase toLowerCase none
      (cleanCompanyName.patterns.foldl (fun cleanedName pattern =>
        replaceRegExp cleanedName pattern) name.data))⟩

/-- A pattern character read as a literal, letters without regard to case. -/
def literalCharMatches (p c : Char) : Bool :=
  p.toUpper == c.toUpper

/-- The pattern, taken as a literal string, occurs at the start of the
    subject, letters without regard to case. -/
def literalMatchesAt : List Char → List Char → Bool
  | [], _ => true
  | _ :: _, [] => false
  | p :: ps, c :: cs => literalCharMatches p c && literalMatchesAt ps cs

/-- The reference of the specification for `cleanCompanyName`: pattern by
    pattern, in list order, every case-insensitive occurrence of the pattern
    taken as a literal string is removed (a `.` in a pattern matches only a
    period); then the words are title-cased and trailing periods, commas and
    white space are trimmed. -/
def cleanCompanyName.literalReference (toLowerCase : String → String) (name : String) :
    String :=
  ⟨trimTrailing
    (titleCase toLowerCase none
      (cleanCompanyName.patterns.foldl (fun cleanedName pattern =>
        removeMatches (literalMatchesAt pattern.data) pattern.length 0 cleanedName)
        name.data))⟩

/-! ## Payloads and the serial queue (`src/replyio.js`, `pushContacts`) -/

/-- The body of the loop of `src/replyio.js:108-172` up to the object
    `contactData` of line 139, for one row. It throws when the row has no
    `name`: `cleanCompanyName(undefined)` reads `.replace` of `undefined`. -/
def pushContacts.contactData (toLowerCase : String → String) (campaignId : Option Nat)
    (row : ClassifiedRow) : Except String ContactData :=
  -- lines 109-124
  let name := row.row.get "name"
  let business_email_address := row.row.get "business_email_address"
  let category_survey_email_address := row.row.get "category_survey_email_address"
  -- line 128
  let category_survey_email_address :=
    if business_email_address == category_survey_email_address then some ""
    else category_survey_email_address
  -- line 130
  let category_survey_email_address :=
    if row.secondary_email_exists_in_db then some "" else category_survey_email_address
  -- lines 132-137
  let addresses :=
    if row.email_exists_in_db && !row.secondary_email_exists_in_db then
      (category_survey_email_address, some "")
    else (business_email_address, category_survey_email_address)
  match name with
  | none => Except.error "TypeError: Cannot read properties of undefined (reading 'replace')"
  | some companyName =>
    -- lines 139-169
    Except.ok
      { campaignId := campaignId
        email := addresses.1
        firstName := "null"
        lastName := ""
        company := name
        city := row.row.get "billingcity"
        state := row.row.get "billingstate"
        country := row.row.get "billingcountry"
        timeZoneId := "US Eastern Standard Time"
        title := ""
        notes := ""
        phone := ""
        linkedInProfile := ""
        customFields :=
          [ ⟨"Secondary Email", addresses.2⟩,
            ⟨"Dear", some "Hello"⟩,
            ⟨"Example Article", some
              "https://news.hamlethub.com/ridgefield/places/75667-why-small-businesses-matter-private-educational-services"⟩,
            ⟨"Lead source", some
              "https://drive.google.com/drive/folders/1IdDroORBVaKhbD-p1pPJphCoZvikYrKJ"⟩,
            ⟨"Mailing address", row.row.get "mailing_address"⟩,
            ⟨"Shortened Company name", some (cleanCompanyName toLowerCase companyName)⟩,
            ⟨"Sponsor", some "Fairfield County Bank"⟩ ] }

/-- The tasks that the loop of lines 108-172 pushes to `apiCallQueue`, in row
    order. When a payload cannot be built the loop is left by the exception,
    so the rows after it are not queued. -/
def pushContacts.tasks (toLowerCase : String → String) (campaignId : Option Nat) :
    List ClassifiedRow → List ContactData
  | [] => []
  | row :: rest =>
    match pushContacts.contactData toLowerCase campaignId row with
    | Except.ok contactData =>
      contactData :: pushContacts.tasks toLowerCase campaignId rest
    | Except.error _ => []

/-- The queue `apiCallQueue` of `src/replyio.js:54-106`, created with
    `{ concurrent: 1 }`: the tasks go through the worker one at a time in the
    order in which they were pushed, and the worker is started on a task when
    the task before it has called `cb` (with or without an error). `calls` is
    the number of calls of the push capability made so far. -/
def pushContacts.queue (service : Nat → PushResult) : Nat → List ContactData → List DispatchEvent
  | _, [] => []
  | calls, contactData :: rest =>
    pushContacts.worker service contactData calls ++
      pushContacts.queue service
        (calls + pushCount (pushContacts.worker service contactData calls)) rest

/-- The trace of `pushContacts(uniqueRows, campaignId)` (`src/replyio.js:48-184`). -/
def pushContacts (service : Nat → PushResult) (toLowerCase : String → String)
    (uniqueRows : List ClassifiedRow) (campaignId : Option Nat) : List DispatchEvent :=
  pushContacts.queue service 0 (pushContacts.tasks toLowerCase campaignId uniqueRows)

/-- The payloads of the calls of the push capability in a trace, in order. -/
def pushedPayloads (trace : List DispatchEvent) : List ContactData :=
  trace.filterMap (fun e => match e with | DispatchEvent.push d => some d | _ => none)

/-- The events of `k` failed attempts on a task, each followed by the timer
    that precedes the retry (`src/replyio.js:92-95`). -/
def failedAttempts (contactData : ContactData) (k : Nat) : List DispatchEvent :=
  (List.replicate k [DispatchEvent.push contactData, DispatchEvent.delay 11000]).flatten

/-! ## Settlement of the dispatcher promise (`src/replyio.js:48-184`) -/

/-- What `apiCallQueue` emits to the listeners of `src/replyio.js:174-182`:
    `"drain"`, `"error"` with an error, or neither of the two. -/
inductive QueueEvent where
  | drain
  | error (error : String)
  | silent
  deriving DecidableEq, Repr

/-- The loop of `src/replyio.js:108-172` runs to its end: a payload is built
    for every row. -/
def pushContacts.loopCompletes (toLowerCase : String → String) (campaignId : Option Nat)
    (uniqueRows : List ClassifiedRow) : Bool :=
  uniqueRows.all (fun row =>
    match pushContacts.contactData toLowerCase campaignId row with
    | Except.ok _ => true
    | Except.error _ => false)

/-- The promise that `pushContacts(uniqueRows, campaignId)` returns
    (`src/replyio.js:48-184`). The executor of line 49 is an `async` function:
    when a payload cannot be built, the exception of line 166 ends the
    executor before the listeners of lines 174-182 are registered (it rejects
    the promise of the executor itself, which nothing reads), and neither
    `resolve` nor `reject` is ever called. Otherwise the promise follows the
    event of the queue. -/
def pushContacts.promise (toLowerCase : String → String) (uniqueRows : List ClassifiedRow)
    (campaignId : Option Nat) (event : QueueEvent) : Settlement Unit :=
  if pushContacts.loopCompletes toLowerCase campaignId uniqueRows then
    match event with
    | QueueEvent.drain => Settlement.resolved ()
    | QueueEvent.error error => Settlement.rejected error
    | QueueEvent.silent => Settlement.pending
  else Settlement.pending

/-! ## API errors and the campaign lookup (`src/replyio_api`, `src/replyio.js`) -/

/-- The property `error.response` of an error thrown by `axios`: the status
    and the body, the latter as the text `JSON.stringify(data)`. -/
structure ApiErrorResponse where
  status : Nat
  data : String
  deriving DecidableEq, Repr

/-- An error thrown by `makeRequest` (`src/replyio_api/api_auth.js:21-26`);
    `response` is `none` when no response was received. -/
structure ApiError where
  response : Option ApiErrorResponse
  deriving DecidableEq, Repr

/-- The branches of the `switch (status)` of `api_auth.js:53-66`. -/
inductive MessageKind where
  | wrongInputParameter
  | invalidApiKey
  | accessDenied
  | resourceNotFound
  | internalServerError
  | unexpectedError
  deriving DecidableEq, Repr

/-- The branch that `switch (status)` takes (`api_auth.js:53-66`). -/
def handleApiError.kind (status : Nat) : MessageKind :=
  if status = 400 then MessageKind.wrongInputParameter
  else if status = 401 then MessageKind.invalidApiKey
  else if status = 403 then MessageKind.accessDenied
  else if status = 404 then MessageKind.resourceNotFound
  else if status = 500 then MessageKind.internalServerError
  else MessageKind.unexpectedError

/-- The method `handleApiError(error)` (`api_auth.js:49-70`). -/
def handleApiError (error : ApiError) : String :=
  match error.response with
  | some response =>
    match handleApiError.kind response.status with
    | MessageKind.wrongInputParameter =>
      "Status code: " ++ toString response.status ++ " - Wrong input parameter: " ++
        response.data
    | MessageKind.invalidApiKey =>
      "Status code: " ++ toString response.status ++ " - User not found. Invalid API key."
    | MessageKind.accessDenied =>
      "Status code: " ++ toString response.status ++
        " - Access denied. The API key doesn't have access to the requested resource."
    | MessageKind.resourceNotFound =>
      "Status code: " ++ toString response.status ++
        " - The requested resource could not be found: " ++ response.data
    | MessageKind.internalServerError =>
      "Status code: " ++ toString response.status ++
        " - Internal Server Error. Please try again later."
    | MessageKind.unexpectedError =>
      "Status code: " ++ toString response.status ++ " - Unexpected error: " ++ response.data
  | none => "Status code: unknown - Unknown error occurred while making the API request."

/-- The method `getCampaignDetailsByName(name)` (`src/replyio_api/campaigns.js:8-15`);
    `get` is how the request `this.auth.get(url)` ends. -/
def getCampaignDetailsByName (get : Except ApiError CampaignResult) (name : String) :
    Except String CampaignResult :=
  match get with
  | Except.ok data => Except.ok data
  | Except.error error =>
    Except.error
      ("An error occurred while fetching campaign details for " ++ name ++ ": " ++
        handleApiError error)

/-- The method `CheckIfCampaignExists(campaignName)` (`src/replyio.js:186-196`);
    the result `CampaignResult.notFound` is the value `false`. -/
def CheckIfCampaignExists (get : Except ApiError CampaignResult) (campaignName : String) :
    Except String CampaignResult :=
  match getCampaignDetailsByName get campaignName with
  | Except.ok data => Except.ok data
  | Except.error error =>
    if includes error "Campaign not found" then Except.ok CampaignResult.notFound
    else Except.error ("An error occurred while checking if campaign exists: " ++ error)

/-! ## Settlement of the classifier promise (`functions.js:160-302`) -/

/-- The promise that `filterUniqueEmailsFromCSV(fileName)` returns.

    * `parsed` is how lines 165-166 end (`fs.readFileSync`, `Papa.parse`): the
      rows, or the exception that the `catch` of line 298 turns into the only
      `reject` of the function (line 299).
    * `drain` says whether `emailCheckQueue` emits `"drain"`, the only event
      the function listens to (line 294), once its tasks have ended. A worker
      that ends with `cb(err)` fails its task in the queue; no listener is
      registered for that. -/
def filterUniqueEmailsFromCSV.promise (parsed : Except String (List Row)) (drain : Bool)
    (lookups : Nat → Lookup) : Settlement (List ClassifiedRow) :=
  match parsed with
  | Except.error error =>
    Settlement.rejected
      ("An error occurred while filtering unique emails from csv file: " ++ error)
  | Except.ok parsedRows =>
    if drain then Settlement.resolved (filterUniqueEmailsFromCSV lookups parsedRows)
    else Settlement.pending

/-! ## The insert after a successful push (`src/replyio.js:59-82`, `src/sql/scripts.js:123-138`) -/

/-- The promise that `insertContact(..)` returns (`src/sql/scripts.js:123-138`);
    `queryError` is the `err` that `mysql.query` hands to its callback
    (`none` when the INSERT succeeded). -/
def insertContact (queryError : Option String) : Settlement Unit :=
  match queryError with
  | none => Settlement.resolved ()
  | some err => Settlement.rejected err

/-- What the Node.js host does with a rejected promise that no handler takes
    (the option `--unhandled-rejections`). -/
inductive UnhandledRejections where
  /-- Mode `warn`, the default up to Node.js 14: a warning is printed and the
      process goes on. -/
  | warn
  /-- Mode `throw`, the default since Node.js 15: the rejection is raised as
      an uncaught exception; the repository installs no handler for
      `unhandledRejection` or `uncaughtException`, so the process ends. -/
  | throw
  deriving DecidableEq, Repr

/-- What the `.then` callback of `src/replyio.js:59-82` does once the push resolved. -/
structure ThenBranch where
  /-- The events, in program order. -/
  events : List DispatchEvent
  /-- The error that the `catch` of line 72 logs, when that block runs. -/
  caught : Option String
  /-- The rejection of the promise of `insertContact`, which no handler takes. -/
  unhandled : Option String
  /-- The uncaught exception with which the process ends, when it does. -/
  uncaughtException : Option String
  deriving DecidableEq, Repr

/-- The `.then` callback of `src/replyio.js:59-82`; `insert` is how the promise
    that `insertContact` returns settles, which it does while the timer of
    line 79 is running. The call of line 66 is not awaited and its promise
    gets no handler. `insertContact` is an `async` function, so the call
    returns that promise and does not throw: the `catch` of line 72 does not
    run, and the log and the `setTimeout` of lines 75-81 follow. When the
    promise rejects, no handler takes the rejection: on a host in mode `warn`
    the timer fires and `cb(null)` is called; on a host in mode `throw` the
    process ends first, and `cb` is never called. -/
def makeAPICall.onPushResolved (host : UnhandledRejections) (contactData : ContactData)
    (insert : Settlement Unit) : ThenBranch :=
  let call := DispatchEvent.insertContact contactData.company contactData.email
    (contactData.customField "Mailing address") (contactData.customField "Secondary Email")
  match insert with
  | Settlement.rejected error =>
    match host with
    | UnhandledRejections.throw =>
      { events := [call, DispatchEvent.delay 11000]
        caught := none
        unhandled := some error
        uncaughtException := some error }
    | UnhandledRejections.warn =>
      { events := [call, DispatchEvent.delay 11000, DispatchEvent.cb none]
        caught := none
        unhandled := some error
        uncaughtException := none }
  | _ =>
    { events := [call, DispatchEvent.delay 11000, DispatchEvent.cb none]
      caught := none
      unhandled := none
      uncaughtException := none }

/-- A run of the dispatcher on a host: the events up to the end of the run
    or of the process, and the uncaught exception that ended the process. -/
structure HostRun where
  events : List DispatchEvent
  uncaughtException : Option String
  deriving DecidableEq, Repr

/-- The closure `makeAPICall(retriesLeft)` of `src/replyio.js:56-102` on a
    host. `store k` is the `err` that `mysql.query` hands to the callback of
    the `k`-th INSERT of the run (counted from 0); `inserts` is the number of
    calls of `insertContact` made earlier in the run. -/
def makeAPICall.onHost (host : UnhandledRejections) (service : Nat → PushResult)
    (store : Nat → Option String) (contactData : ContactData) :
    (retriesLeft : Nat) → (calls : Nat) → (inserts : Nat) → HostRun
  | retriesLeft, calls, inserts =>
    match service calls with
    | PushResult.resolved =>
      let branch := makeAPICall.onPushResolved host contactData (insertContact (store inserts))
      { events := DispatchEvent.push contactData :: branch.events
        uncaughtException := branch.uncaughtException }
    | PushResult.rejected error =>
      match retriesLeft with
      | retriesLeftMinusOne + 1 =>
        if includes error "Contact is already in this sequence" then
          { events := [DispatchEvent.push contactData, DispatchEvent.cb (some error)]
            uncaughtException := none }
        else
          let retry := makeAPICall.onHost host service store contactData retriesLeftMinusOne
            (calls + 1) inserts
          { events := DispatchEvent.push contactData :: DispatchEvent.delay 11000 :: retry.events
            uncaughtException := retry.uncaughtException }
      | 0 =>
        { events := [DispatchEvent.push contactData, DispatchEvent.cb (some error)]
          uncaughtException := none }

/-- The queue `apiCallQueue` of `src/replyio.js:54-106` on a host: a task is
    handed to the worker when the task before it has called `cb`; when the
    process ends during a task, nothing follows. -/
def pushContacts.queueOnHost (host : UnhandledRejections) (service : Nat → PushResult)
    (store : Nat → Option String) : Nat → Nat → List ContactData → HostRun
  | _, _, [] => { events := [], uncaughtException := none }
  | calls, inserts, contactData :: rest =>
    let run := makeAPICall.onHost host service store contactData maxRetries calls inserts
    match run.uncaughtException with
    | some error => { events := run.events, uncaughtException := some error }
    | none =>
      let next := pushContacts.queueOnHost host service store (calls + pushCount run.events)
        (inserts + insertContactCount run.events) rest
      { events := run.events ++ next.events, uncaughtException := next.uncaughtException }

/-! ## The folder marker table (`src/sql/scripts.js:71-85`) -/

/-- The rows `(folder_id, folder_name)` of the table `sots_main_folders`. -/
abbrev MainFolders := List (String × String)

/-- The method `sql_insertFolder(folder_id, folder_name)` (`src/sql/scripts.js:71-85`)
    on the table: the promise it returns and the table afterwards. The INSERT
    of line 73 adds one row when the query succeeds (`queryError` is `none`)
    and none when it fails. -/
def sql_insertFolder (table : MainFolders) (folder_id folder_name : String)
    (queryError : Option String) : Settlement Unit × MainFolders :=
  match queryError with
  | none => (Settlement.resolved (), table ++ [(folder_id, folder_name)])
  | some err => (Settlement.rejected err, table)

/-! ### Sample inputs for the dispatcher -/

/-- A payload as `pushContacts` builds it for a row of a filtered CSV. -/
def sampleContact : ContactData :=
  { campaignId := some 7, email := some "owner@acme.com", firstName := "null", lastName := "",
    company := some "Acme Consulting, LLC.", city := some "Norwalk", state := some "CT",
    country := some "US", timeZoneId := "US Eastern Standard Time", title := "", notes := "",
    phone := "", linkedInProfile := "",
    customFields :=
      [ ⟨"Secondary Email", some ""⟩, ⟨"Dear", some "Hello"⟩,
        ⟨"Mailing address", some "1 Main St, Norwalk, CT"⟩,
        ⟨"Shortened Company name", some "Acme Consulting"⟩,
        ⟨"Sponsor", some "Fairfield County Bank"⟩ ] }

/-- The rejection text of `createAndPushContactToCampaign` for an HTTP 500
    (`actions.js:24` with `api_auth.js:63`). -/
def serverErrorText : String :=
  "An error occurred while creating and pushing contact to campaign: Status code: 500 - Internal Server Error. Please try again later."

/-- The rejection text for an HTTP 400 whose body says that the contact is
    already enrolled (`actions.js:24` with `api_auth.js:55`). -/
def alreadyEnrolledText : String :=
  "An error occurred while creating and pushing contact to campaign: Status code: 400 - Wrong input parameter: \"Contact is already in this sequence\""

/-- A campaign service that answers every call with an HTTP 500. -/
def serviceAlwaysDown : Nat → PushResult :=
  fun _ => PushResult.rejected serverErrorText

/-- A campaign service that fails the first two calls and accepts the third. -/
def serviceUpOnThirdCall : Nat → PushResult :=
  fun k => if k < 2 then PushResult.rejected serverErrorText else PushResult.resolved

/-- A campaign service that reports every contact as already enrolled. -/
def serviceAlreadyEnrolled : Nat → PushResult :=
  fun _ => PushResult.rejected alreadyEnrolledText

/-! ### Sample inputs for the row filter and the classifier -/

/-- A parsed row of a registry export for a business in Norwalk. -/
def rawRowNorwalk : Row :=
  ⟨[ ("name", "Acme Consulting, LLC."), ("billingcity", "NORWALK"), ("naics_code", "541611"),
     ("business_email_address", "owner@acme.com"), ("category_survey_email_address", "") ]⟩

/-- A row whose only new address is the primary one; the secondary is empty. -/
def rowNewPrimary : Row :=
  ⟨[ ("name", "Acme Consulting, LLC."), ("billingcity", "Norwalk"),
     ("business_email_address", "owner@acme.com"), ("category_survey_email_address", "") ]⟩

/-- A row with two addresses. -/
def rowTwoAddresses : Row :=
  ⟨[ ("name", "Birch Bakery Inc"), ("billingcity", "Darien"),
     ("business_email_address", "hello@birch.com"),
     ("category_survey_email_address", "orders@birch.com") ]⟩

/-- A row whose primary address is that of a filing agent. -/
def rowAgentPrimary : Row :=
  ⟨[ ("name", "Cedar Works LLC"), ("billingcity", "Wilton"),
     ("business_email_address", "agent@zenbusiness.com"),
     ("category_survey_email_address", "owner@cedarworks.com") ]⟩

/-- A row whose secondary address is that of a filing agent. -/
def rowAgentSecondary : Row :=
  ⟨[ ("name", "Cedar Works LLC"), ("billingcity", "Wilton"),
     ("business_email_address", "owner@cedarworks.com"),
     ("category_survey_email_address", "agent@zenbusiness.com") ]⟩

/-- A store in which no address is found. -/
def lookupNothingFound : Lookup :=
  fun _ _ _ => QueryResult.result (some 0)

/-- A store in which every address is found once in each table. -/
def lookupEverythingFound : Lookup :=
  fun _ _ _ => QueryResult.result (some 1)

/-- Answers for a batch of two rows: nothing is found for row 0, everything for row 1. -/
def sampleLookups : Nat → Lookup :=
  fun i => if i = 0 then lookupNothingFound else lookupEverythingFound

/-- A batch of two rows. -/
def sampleRows : List Row :=
  [rowNewPrimary, rowTwoAddresses]

/-! ### Sample inputs for the orchestrator -/

/-- A folder that `sql_checkFolders` reports as not processed. -/
def sampleFolder : Folder := ⟨"folder-2023-09", "2023-09", false⟩

/-- A folder that `sql_checkFolders` reports as processed. -/
def sampleProcessedFolder : Folder := ⟨"folder-2023-08", "2023-08", true⟩

/-- A CSV file of a folder. -/
def sampleFile : DriveItem := ⟨"file-1", "Norwalk.csv"⟩

/-- A run in which every collaborator answers: one folder with one file, not
    yet processed; the campaign exists with id 7 and one row survives. -/
def worldHealthy : World :=
  { google_drive_auth := fun _ => Except.ok ()
    drive_listFolders := fun _ _ => Except.ok [⟨"folder-2023-09", "2023-09"⟩]
    sql_checkFolders := fun _ folders =>
      Except.ok (folders.map (fun folder => ⟨folder.id, folder.name, false⟩))
    drive_listCSVFiles := fun _ _ => Except.ok [sampleFile]
    sql_checkFileExists := fun _ _ _ => Except.ok false
    downloadAndFilter := fun _ _ _ => Except.ok ()
    CheckIfCampaignExists := fun _ _ => Except.ok (CampaignResult.object (some 7))
    CreateNewCampaign := fun _ _ => Except.ok (some 8)
    filterUniqueEmailsFromCSV := fun _ _ => Settlement.resolved [⟨rowNewPrimary, false, true⟩]
    pushContacts := fun _ _ _ => Settlement.resolved ()
    sql_insertProcessedFile := fun _ _ _ => Except.ok ()
    sql_insertFolder := fun _ _ _ => Except.ok () }

/-- A run in which every folder and every file is reported as processed. -/
def worldAllProcessed : World :=
  { worldHealthy with
    sql_checkFolders := fun _ folders =>
      Except.ok (folders.map (fun folder => ⟨folder.id, folder.name, true⟩))
    sql_checkFileExists := fun _ _ _ => Except.ok true }

/-- A run in which `drive_listCSVFiles` rejects (`functions.js:72`). -/
def worldListingFails : World :=
  { worldHealthy with
    drive_listCSVFiles := fun _ folderId =>
      Except.error ("No CSV files found in folder with ID " ++ folderId ++ ".") }

/-- A run in which `filterUniqueEmailsFromCSV` rejects: reading the filtered
    file fails (`functions.js:165`, `299`). -/
def worldClassifierFails : World :=
  { worldHealthy with
    filterUniqueEmailsFromCSV := fun _ fileName =>
      Settlement.rejected ("An error occurred while filtering unique emails from csv file: " ++
        "Error: ENOENT: no such file or directory, open csv_storage/filtered_" ++ fileName) }

/-- A run in which `pushContacts` rejects (`replyio.js:179-182`). -/
def worldDispatchFails : World :=
  { worldHealthy with
    pushContacts := fun _ _ _ => Settlement.rejected "Error: queue failure" }

/-! ### Sample inputs for payloads, API errors and the classifier promise -/

/-- A classified row whose two addresses are the same text, with the flags
    `true` and `false` (the store answered differently for the two columns). -/
def rowSameAddressTwice : ClassifiedRow :=
  ⟨⟨[ ("name", "Birch Bakery Inc"), ("billingcity", "Darien"),
      ("business_email_address", "hello@birch.com"),
      ("category_survey_email_address", "hello@birch.com") ]⟩, true, false⟩

/-- A classified row whose primary address is known and whose secondary one is new. -/
def rowKnownPrimary : ClassifiedRow :=
  ⟨rowTwoAddresses, true, false⟩

/-- A classified row whose secondary address is known and whose primary one is new. -/
def rowKnownSecondary : ClassifiedRow :=
  ⟨rowTwoAddresses, false, true⟩

/-- The error of a request answered with an HTTP 500 and an empty body. -/
def serverErrorResponse : ApiError :=
  ⟨some ⟨500, "\"\""⟩⟩

/-- Answers for a batch of two rows: nothing is found for row 0, the queries
    of row 1 fail. -/
def lookupSecondRowFails : Nat → Lookup :=
  fun i =>
    if i = 0 then lookupNothingFound else fun _ _ _ => QueryResult.err "Error: read ECONNRESET"

/-! ### Sample inputs for the last claims -/

/-- A run in which the campaign of the file is not found and creating it fails. -/
def worldCreateFails : World :=
  { worldHealthy with
    CheckIfCampaignExists := fun _ _ => Except.ok CampaignResult.notFound
    CreateNewCampaign := fun _ _ =>
      Except.error ("An error occurred while creating campaign (Template step text): " ++
        "Status code: 401 - User not found. Invalid API key.") }

/-- A second CSV file of a folder. -/
def sampleFile2 : DriveItem := ⟨"file-2", "Darien.csv"⟩

/-- A campaign service that accepts every call. -/
def serviceAlwaysUp : Nat → PushResult :=
  fun _ => PushResult.resolved

/-- A run in which the only folder is reported as processed. -/
def worldFolderProcessed : World :=
  { worldHealthy with
    sql_checkFolders := fun _ folders =>
      Except.ok (folders.map (fun folder => ⟨folder.id, folder.name, true⟩)) }

/-! ### Sample inputs for the insert after a successful push -/

/-- A second payload. -/
def sampleContact2 : ContactData :=
  { sampleContact with
    email := some "info@darienbakery.com"
    company := some "Darien Bakery"
    city := some "Darien"
    customFields :=
      [ ⟨"Secondary Email", some ""⟩, ⟨"Dear", some "Hello"⟩,
        ⟨"Mailing address", some "12 Post Rd, Darien, CT"⟩,
        ⟨"Shortened Company name", some "Darien Bakery"⟩,
        ⟨"Sponsor", some "Fairfield County Bank"⟩ ] }

/-- A store whose every INSERT fails. -/
def storeRejectsInserts : Nat → Option String :=
  fun _ => some "Error: ER_DATA_TOO_LONG: Data too long for column 'name' at row 1"

/-- A store whose every INSERT succeeds. -/
def storeAcceptsInserts : Nat → Option String :=
  fun _ => none

/-! ### Sample inputs for promises that stay pending -/

/-- A classified row of a file that has no `name` column. -/
def rowWithoutName : ClassifiedRow :=
  ⟨⟨[ ("billingcity", "Norwalk"), ("business_email_address", "owner@acme.com"),
      ("category_survey_email_address", "") ]⟩, false, true⟩

/-- A run over two folders, neither processed, in which the surviving row of
    a file has no `name`; `pushContacts` answers as `pushContacts.promise`
    says for a queue that drains. -/
def worldPayloadFails : World :=
  { worldHealthy with
    drive_listFolders := fun _ _ =>
      Except.ok [⟨"folder-2023-09", "2023-09"⟩, ⟨"folder-2023-10", "2023-10"⟩]
    filterUniqueEmailsFromCSV := fun _ _ => Settlement.resolved [rowWithoutName]
    pushContacts := fun _ uniqueRows campaignId =>
      pushContacts.promise asciiLower uniqueRows campaignId QueueEvent.drain }

/-! ## Theorems: strings -/

set_option maxRecDepth 20000

/-- The substring test agrees with the infix relation on lists. -/
theorem includesChars_iff_infix (s pat : List Char) :
    includesChars s pat = true ↔ pat <:+: s := by
  induction s with
  | nil =>
    cases pat <;> simp [includesChars, List.isPrefixOf]
  | cons c cs ih =>
    rw [includesChars, Bool.or_eq_true, ih, List.isPrefixOf_iff_prefix, List.infix_cons_iff]

/-! ## Theorems: contact dispatcher -/

theorem makeAPICall_resolved (service : Nat → PushResult) (d : ContactData)
    (retriesLeft calls : Nat) (h : service calls = PushResult.resolved) :
    makeAPICall service d retriesLeft calls =
      [ DispatchEvent.push d,
        DispatchEvent.insertContact d.company d.email (d.customField "Mailing address")
          (d.customField "Secondary Email"),
        DispatchEvent.delay 11000,
        DispatchEvent.cb none ] := by
  rw [makeAPICall]
  simp only [h]

theorem makeAPICall_exhausted (service : Nat → PushResult) (d : ContactData)
    (calls : Nat) (error : String) (h : service calls = PushResult.rejected error) :
    makeAPICall service d 0 calls = [DispatchEvent.push d, DispatchEvent.cb (some error)] := by
  rw [makeAPICall]
  simp only [h]

theorem makeAPICall_terminal (service : Nat → PushResult) (d : ContactData)
    (r calls : Nat) (error : String) (h : service calls = PushResult.rejected error)
    (hm : includes error "Contact is already in this sequence" = true) :
    makeAPICall service d (r + 1) calls =
      [DispatchEvent.push d, DispatchEvent.cb (some error)] := by
  rw [makeAPICall]
  simp only [h, hm, if_true]

theorem makeAPICall_retry (service : Nat → PushResult) (d : ContactData)
    (r calls : Nat) (error : String) (h : service calls = PushResult.rejected error)
    (hm : includes error "Contact is already in this sequence" = false) :
    makeAPICall service d (r + 1) calls =
      DispatchEvent.push d :: DispatchEvent.delay 11000 ::
        makeAPICall service d r (calls + 1) := by
  rw [makeAPICall]
  simp only [h, hm, Bool.false_eq_true, if_false]

/-- C1 (as stated, refuted): with a service that answers every call with an
    HTTP 500, whose text does not contain "Contact is already in this
    sequence", the worker calls the push capability 4 times, not 3, before it
    reports the failure with `cb(error)`. -/
theorem C1_always_failing_not_three_calls :
    includes serverErrorText "Contact is already in this sequence" = false ∧
    pushCount (pushContacts.worker (fun _ => PushResult.rejected serverErrorText)
      sampleContact 0) = 4 ∧
    pushCount (pushContacts.worker (fun _ => PushResult.rejected serverErrorText)
      sampleContact 0) ≠ 3 ∧
    callbacks (pushContacts.worker (fun _ => PushResult.rejected serverErrorText)
      sampleContact 0) = [some serverErrorText] := by
  decide

/-- C1 (amended): when every call of the push capability fails with an error
    that does not contain "Contact is already in this sequence", the worker
    makes exactly 4 calls (the first attempt and `maxRetries = 3` retries, an
    11 s timer before each retry), persists no contact, and then reports the
    error of the fourth call to the queue with a single `cb(error)`. -/
theorem C1_always_failing_four_calls (service : Nat → PushResult) (d : ContactData)
    (calls : Nat)
    (h : ∀ k, ∃ error, service (calls + k) = PushResult.rejected error ∧
      includes error "Contact is already in this sequence" = false) :
    ∃ error, service (calls + 3) = PushResult.rejected error ∧
      pushContacts.worker service d calls =
        [ DispatchEvent.push d, DispatchEvent.delay 11000,
          DispatchEvent.push d, DispatchEvent.delay 11000,
          DispatchEvent.push d, DispatchEvent.delay 11000,
          DispatchEvent.push d, DispatchEvent.cb (some error) ] ∧
      pushCount (pushContacts.worker service d calls) = 4 ∧
      insertContactCount (pushContacts.worker service d calls) = 0 ∧
      callbacks (pushContacts.worker service d calls) = [some error] := by
  obtain ⟨e0, h0, m0⟩ := h 0
  obtain ⟨e1, h1, m1⟩ := h 1
  obtain ⟨e2, h2, m2⟩ := h 2
  obtain ⟨e3, h3, _⟩ := h 3
  rw [Nat.add_zero] at h0
  have h2' : service (calls + 1 + 1) = PushResult.rejected e2 := h2
  have h3' : service (calls + 1 + 1 + 1) = PushResult.rejected e3 := h3
  have run : pushContacts.worker service d calls =
      [ DispatchEvent.push d, DispatchEvent.delay 11000,
        DispatchEvent.push d, DispatchEvent.delay 11000,
        DispatchEvent.push d, DispatchEvent.delay 11000,
        DispatchEvent.push d, DispatchEvent.cb (some e3) ] := by
    unfold pushContacts.worker maxRetries
    rw [makeAPICall_retry service d 2 calls e0 h0 m0,
      makeAPICall_retry service d 1 (calls + 1) e1 h1 m1,
      makeAPICall_retry service d 0 (calls + 1 + 1) e2 h2' m2,
      makeAPICall_exhausted service d (calls + 1 + 1 + 1) e3 h3']
  refine ⟨e3, h3, run, ?_, ?_, ?_⟩ <;> rw [run] <;> rfl

/-- Witness of C1 (amended): the service that is always down. -/
theorem C1_always_failing_four_calls_witness :
    ∃ error, serviceAlwaysDown (0 + 3) = PushResult.rejected error ∧
      pushContacts.worker serviceAlwaysDown sampleContact 0 =
        [ DispatchEvent.push sampleContact, DispatchEvent.delay 11000,
          DispatchEvent.push sampleContact, DispatchEvent.delay 11000,
          DispatchEvent.push sampleContact, DispatchEvent.delay 11000,
          DispatchEvent.push sampleContact, DispatchEvent.cb (some error) ] ∧
      pushCount (pushContacts.worker serviceAlwaysDown sampleContact 0) = 4 ∧
      insertContactCount (pushContacts.worker serviceAlwaysDown sampleContact 0) = 0 ∧
      callbacks (pushContacts.worker serviceAlwaysDown sampleContact 0) = [some error] :=
  C1_always_failing_four_calls serviceAlwaysDown sampleContact 0
    (fun _ => ⟨serverErrorText, rfl, by decide⟩)

/-- C2: when the push capability fails twice with errors that do not contain
    "Contact is already in this sequence" and then succeeds, the worker makes
    exactly 3 calls, persists the contact once, and ends the task with
    `cb(null)`. -/
theorem C2_two_failures_then_success (service : Nat → PushResult) (d : ContactData)
    (calls : Nat) (error1 error2 : String)
    (h1 : service calls = PushResult.rejected error1)
    (m1 : includes error1 "Contact is already in this sequence" = false)
    (h2 : service (calls + 1) = PushResult.rejected error2)
    (m2 : includes error2 "Contact is already in this sequence" = false)
    (h3 : service (calls + 2) = PushResult.resolved) :
    pushContacts.worker service d calls =
      [ DispatchEvent.push d, DispatchEvent.delay 11000,
        DispatchEvent.push d, DispatchEvent.delay 11000,
        DispatchEvent.push d,
        DispatchEvent.insertContact d.company d.email (d.customField "Mailing address")
          (d.customField "Secondary Email"),
        DispatchEvent.delay 11000,
        DispatchEvent.cb none ] ∧
    pushCount (pushContacts.worker service d calls) = 3 ∧
    callbacks (pushContacts.worker service d calls) = [none] := by
  have h3' : service (calls + 1 + 1) = PushResult.resolved := h3
  have run : pushContacts.worker service d calls =
      [ DispatchEvent.push d, DispatchEvent.delay 11000,
        DispatchEvent.push d, DispatchEvent.delay 11000,
        DispatchEvent.push d,
        DispatchEvent.insertContact d.company d.email (d.customField "Mailing address")
          (d.customField "Secondary Email"),
        DispatchEvent.delay 11000,
        DispatchEvent.cb none ] := by
    unfold pushContacts.worker maxRetries
    rw [makeAPICall_retry service d 2 calls error1 h1 m1,
      makeAPICall_retry service d 1 (calls + 1) error2 h2 m2,
      makeAPICall_resolved service d 1 (calls + 1 + 1) h3']
  refine ⟨run, ?_, ?_⟩ <;> rw [run] <;> rfl

/-- Witness of C2: a service that is down for two calls and then accepts. -/
theorem C2_two_failures_then_success_witness :
    pushCount (pushContacts.worker serviceUpOnThirdCall sampleContact 0) = 3 ∧
    callbacks (pushContacts.worker serviceUpOnThirdCall sampleContact 0) = [none] :=
  (C2_two_failures_then_success serviceUpOnThirdCall sampleContact 0
    serverErrorText serverErrorText rfl (by decide) rfl (by decide) rfl).2

/-- C3: when the first push attempt fails with an error that contains
    "Contact is already in this sequence", the worker ends the task at once
    with `cb(error)`: one call of the push capability, no timer, no retry and
    no `insertContact`. -/
theorem C3_already_in_sequence_no_retry (service : Nat → PushResult) (d : ContactData)
    (calls : Nat) (error : String)
    (h : service calls = PushResult.rejected error)
    (m : includes error "Contact is already in this sequence" = true) :
    pushContacts.worker service d calls =
      [DispatchEvent.push d, DispatchEvent.cb (some error)] ∧
    pushCount (pushContacts.worker service d calls) = 1 ∧
    delayCount (pushContacts.worker service d calls) = 0 ∧
    insertContactCount (pushContacts.worker service d calls) = 0 := by
  have run : pushContacts.worker service d calls =
      [DispatchEvent.push d, DispatchEvent.cb (some error)] := by
    unfold pushContacts.worker maxRetries
    exact makeAPICall_terminal service d 2 calls error h m
  refine ⟨run, ?_, ?_, ?_⟩ <;> rw [run] <;> rfl

/-- Witness of C3: a service that reports the contact as already enrolled. -/
theorem C3_already_in_sequence_no_retry_witness :
    includes alreadyEnrolledText "Contact is already in this sequence" = true ∧
    pushContacts.worker serviceAlreadyEnrolled sampleContact 0 =
      [DispatchEvent.push sampleContact, DispatchEvent.cb (some alreadyEnrolledText)] ∧
    pushCount (pushContacts.worker serviceAlreadyEnrolled sampleContact 0) = 1 ∧
    delayCount (pushContacts.worker serviceAlreadyEnrolled sampleContact 0) = 0 ∧
    insertContactCount (pushContacts.worker serviceAlreadyEnrolled sampleContact 0) = 0 :=
  ⟨by decide,
    C3_already_in_sequence_no_retry serviceAlreadyEnrolled sampleContact 0
      alreadyEnrolledText rfl (by decide)⟩


/-! ## Theorems: row filter -/

theorem lookup_setProp (props : List (String × String)) (column value c : String) :
    (setProp props column value).lookup c =
      if c = column then some value else props.lookup c := by
  induction props with
  | nil =>
    by_cases h : c = column
    · have hb : (c == column) = true := by simp [h]
      simp [setProp, List.lookup, h]
    · have hb : (c == column) = false := by simp [h]
      simp [setProp, List.lookup, h, hb]
  | cons p rest ih =>
    obtain ⟨k, v⟩ := p
    by_cases hk : column = k
    · subst hk
      by_cases h : c = column
      · simp [setProp, List.lookup, h]
      · have hb : (c == column) = false := by simp [h]
        simp [setProp, List.lookup, h, hb]
    · have hkb : (column == k) = false := by simp [hk]
      by_cases hck : c = k
      · have hc : ¬ c = column := fun e => hk (e ▸ hck)
        have hb : (c == k) = true := by simp [hck]
        simp [setProp, List.lookup, hkb, hb, hc]
      · have hb : (c == k) = false := by simp [hck]
        simp [setProp, List.lookup, hkb, hb, ih]

theorem get_foldl_prune (row : Row) (columns : List String) (acc : Row) (c : String) :
    (columns.foldl
      (fun filteredRow column =>
        match row.get column with
        | some value => filteredRow.set column value
        | none => filteredRow) acc).get c =
      if c ∈ columns ∧ (row.get c).isSome then row.get c else acc.get c := by
  induction columns generalizing acc with
  | nil => simp
  | cons column rest ih =>
    rw [List.foldl_cons, ih]
    by_cases hrest : c ∈ rest ∧ (row.get c).isSome
    · have : c ∈ column :: rest ∧ (row.get c).isSome := ⟨List.mem_cons_of_mem _ hrest.1, hrest.2⟩
      rw [if_pos hrest, if_pos this]
    · rw [if_neg hrest]
      by_cases hc : c = column
      · subst hc
        cases hv : row.get c with
        | none => simp [hv]
        | some value => simp [hv, Row.set, Row.get, lookup_setProp]
      · have hne : ¬ (c ∈ column :: rest ∧ (row.get c).isSome) := by
          intro h
          rcases List.mem_cons.1 h.1 with h1 | h1
          · exact hc h1
          · exact hrest ⟨h1, h.2⟩
        rw [if_neg hne]
        cases hv : row.get column with
        | none => rfl
        | some value => simp [Row.set, Row.get, lookup_setProp, hc]

theorem get_pruneColumns (row : Row) (column value : String) :
    (pruneColumns row).get column = some value ↔
      column ∈ columnsToKeep ∧ row.get column = some value := by
  unfold pruneColumns
  rw [get_foldl_prune]
  constructor
  · intro h
    by_cases hc : column ∈ columnsToKeep ∧ (row.get column).isSome
    · rw [if_pos hc] at h
      exact ⟨hc.1, h⟩
    · rw [if_neg hc] at h
      simp [Row.empty, Row.get] at h
  · rintro ⟨h1, h2⟩
    rw [if_pos ⟨h1, by simp [h2]⟩]
    exact h2

theorem mem_keys_iff (row : Row) (column : String) :
    column ∈ row.keys ↔ ∃ value, row.get column = some value := by
  obtain ⟨props⟩ := row
  simp only [Row.keys, Row.get]
  induction props with
  | nil => simp
  | cons p rest ih =>
    obtain ⟨k, v⟩ := p
    by_cases h : column = k
    · subst h
      simp [List.lookup]
    · have hb : (column == k) = false := by simp [h]
      simp [List.lookup, hb, h, ih]
      

theorem cityFilter_iff (toLowerCase : String → String) (row : Row) :
    cityFilter toLowerCase row = true ↔
      ∃ billingcity, row.get "billingcity" = some billingcity ∧
        toLowerCase billingcity ∈ cityNames.map toLowerCase := by
  unfold cityFilter cities
  cases h : row.get "billingcity" with
  | none => simp
  | some billingcity => simp

/-- C10: the row filter of `drive_downloadCsvAndFilterColumns` keeps, in
    order, exactly the rows that have a `billingcity` column whose lower-cased
    value is in the lower-cased city list, and outputs for each the row
    pruned to `columnsToKeep`: a column of the output row is a kept column,
    and it has a value there exactly when the input row has that value for it. -/
theorem C10_row_filter (toLowerCase : String → String) (parsedRows : List Row) :
    filteredData toLowerCase parsedRows =
      (parsedRows.filter (fun row => cityFilter toLowerCase row)).map
        (fun row => pruneColumns row) ∧
    (∀ row, cityFilter toLowerCase row = true ↔
      ∃ billingcity, row.get "billingcity" = some billingcity ∧
        toLowerCase billingcity ∈ cityNames.map toLowerCase) ∧
    (∀ row column value, (pruneColumns row).get column = some value ↔
      column ∈ columnsToKeep ∧ row.get column = some value) ∧
    (∀ row column, column ∈ (pruneColumns row).keys → column ∈ columnsToKeep) := by
  refine ⟨rfl, cityFilter_iff toLowerCase, get_pruneColumns, ?_⟩
  intro row column hmem
  obtain ⟨value, hv⟩ := (mem_keys_iff (pruneColumns row) column).1 hmem
  exact ((get_pruneColumns row column value).1 hv).1

/-- Witness of C10: a Norwalk row passes the city filter through its
    lower-cased `billingcity`, and the column `name` survives the pruning. -/
theorem C10_row_filter_witness :
    (∃ billingcity, rawRowNorwalk.get "billingcity" = some billingcity ∧
      asciiLower billingcity ∈ cityNames.map asciiLower) ∧
    "name" ∈ columnsToKeep ∧
    filteredData asciiLower [rawRowNorwalk] =
      [⟨[ ("name", "Acme Consulting, LLC."), ("billingcity", "NORWALK"),
          ("business_email_address", "owner@acme.com"),
          ("category_survey_email_address", "") ]⟩] :=
  ⟨((C10_row_filter asciiLower [rawRowNorwalk]).2.1 rawRowNorwalk).1 (by decide),
    (C10_row_filter asciiLower [rawRowNorwalk]).2.2.2 rawRowNorwalk "name" (by decide),
    by decide⟩

/-! ## Theorems: duplicate classifier -/

theorem emailCheckWorker_classified (lookup : Lookup) (row : Row) (c : ClassifiedRow)
    (pushed : Bool)
    (hrun : (emailCheckWorker lookup row).outcome = WorkerOutcome.classified c pushed) :
    ∃ businessEmail categoryEmail,
      row.get "business_email_address" = some businessEmail ∧
      row.get "category_survey_email_address" = some categoryEmail ∧
      containsPredefinedString businessEmail = false ∧
      containsPredefinedString categoryEmail = false ∧
      c.row = row ∧
      c.email_exists_in_db =
        (resultEntry lookup EmailField.business_email_address Table.zoho_contacts businessEmail ||
         resultEntry lookup EmailField.business_email_address Table.sots_contacts businessEmail) ∧
      c.secondary_email_exists_in_db =
        (resultEntry lookup EmailField.category_survey_email_address Table.zoho_contacts
            categoryEmail ||
         resultEntry lookup EmailField.category_survey_email_address Table.sots_contacts
            categoryEmail) ∧
      pushed = !(c.email_exists_in_db && c.secondary_email_exists_in_db) := by
  unfold emailCheckWorker at hrun
  cases hb : row.get "business_email_address" with
  | none => simp [hb] at hrun
  | some businessEmail =>
    cases hpb : containsPredefinedString businessEmail with
    | true => simp [hb, hpb] at hrun
    | false =>
      cases hc : row.get "category_survey_email_address" with
      | none => simp [hb, hpb, hc] at hrun
      | some categoryEmail =>
        cases hpc : containsPredefinedString categoryEmail with
        | true => simp [hb, hpb, hc, hpc] at hrun
        | false =>
          cases hr : firstRejection lookup businessEmail categoryEmail with
          | some err => simp [hb, hpb, hc, hpc, hr] at hrun
          | none =>
            simp only [hb, hpb, hc, hpc, hr, Bool.false_eq_true, if_false,
              WorkerOutcome.classified.injEq] at hrun
            obtain ⟨h1, h2⟩ := hrun
            subst h1
            exact ⟨businessEmail, categoryEmail, rfl, rfl, hpb, hpc, rfl, rfl, rfl, h2.symm⟩

theorem mem_pushedRows (run : WorkerRun) (c : ClassifiedRow) :
    c ∈ run.pushedRows ↔ run.outcome = WorkerOutcome.classified c true := by
  unfold WorkerRun.pushedRows
  cases h : run.outcome with
  | failed err => simp
  | classified row pushed =>
    cases pushed with
    | true => simp [eq_comm]
    | false => simp

theorem mem_uniqueRowsFrom (lookups : Nat → Lookup) (rows : List Row) (index : Nat)
    (c : ClassifiedRow) :
    c ∈ uniqueRowsFrom lookups index rows ↔
      ∃ i, ∃ h : i < rows.length,
        (emailCheckWorker (lookups (index + i)) (rows.get ⟨i, h⟩)).outcome =
          WorkerOutcome.classified c true := by
  induction rows generalizing index with
  | nil => simp [uniqueRowsFrom]
  | cons row rest ih =>
    rw [uniqueRowsFrom, List.mem_append, mem_pushedRows, ih]
    constructor
    · rintro (h | ⟨i, hi, h⟩)
      · exact ⟨0, by simp, by simpa using h⟩
      · refine ⟨i + 1, by simpa using hi, ?_⟩
        have e : index + (i + 1) = index + 1 + i := by omega
        rw [e]
        simpa using h
    · rintro ⟨i, hi, h⟩
      cases i with
      | zero => left; simpa using h
      | succ j =>
        right
        refine ⟨j, by simpa using hi, ?_⟩
        have e : index + (j + 1) = index + 1 + j := by omega
        rw [e] at h
        simpa using h


theorem found_iff (q : QueryResult) :
    q.found = true ↔ ∃ count, q = QueryResult.result (some count) ∧ 0 < count := by
  cases q with
  | err error => simp [QueryResult.found]
  | result count =>
    cases count with
    | none => simp [QueryResult.found]
    | some count => simp [QueryResult.found]

/-- C4 (counterexample): the second row of the batch has two non-empty
    addresses and the store fails its queries. The worker ends in the `catch`
    of line 283 before line 270: neither flag is set on the row, so it is not
    the case that both flags are true, and yet the row is not in the list
    that `filterUniqueEmailsFromCSV` returns. -/
theorem C4_failed_row_not_returned :
    (emailCheckWorker (lookupSecondRowFails 1) (sampleRows.get ⟨1, by decide⟩)).outcome =
      WorkerOutcome.failed "Error: read ECONNRESET" ∧
    WorkerOutcome.email_exists_in_db
      (emailCheckWorker (lookupSecondRowFails 1) (sampleRows.get ⟨1, by decide⟩)).outcome =
        none ∧
    WorkerOutcome.secondary_email_exists_in_db
      (emailCheckWorker (lookupSecondRowFails 1) (sampleRows.get ⟨1, by decide⟩)).outcome =
        none ∧
    ¬ (WorkerOutcome.email_exists_in_db
        (emailCheckWorker (lookupSecondRowFails 1) (sampleRows.get ⟨1, by decide⟩)).outcome =
          some true ∧
      WorkerOutcome.secondary_email_exists_in_db
        (emailCheckWorker (lookupSecondRowFails 1) (sampleRows.get ⟨1, by decide⟩)).outcome =
          some true) ∧
    filterUniqueEmailsFromCSV lookupSecondRowFails sampleRows = [⟨rowNewPrimary, false, true⟩] ∧
    (filterUniqueEmailsFromCSV lookupSecondRowFails sampleRows).all
      (fun c => c.row != sampleRows.get ⟨1, by decide⟩) = true := by
  decide

/-- C4: for a row that the worker classifies (it reaches line 270 and sets
    the two flags), the row is pushed to `uniqueRows`, and so is in the list
    that `filterUniqueEmailsFromCSV` returns, if and only if it is not the
    case that both `email_exists_in_db` and `secondary_email_exists_in_db`
    are true; and every returned row was classified and pushed by the worker. -/
theorem C4_survival_rule (lookups : Nat → Lookup) (parsedRows : List Row) (i : Nat)
    (h : i < parsedRows.length) (c : ClassifiedRow) (pushed : Bool)
    (hrun : (emailCheckWorker (lookups i) (parsedRows.get ⟨i, h⟩)).outcome =
      WorkerOutcome.classified c pushed) :
    c.row = parsedRows.get ⟨i, h⟩ ∧
    (pushed = true ↔
      ¬ (c.email_exists_in_db = true ∧ c.secondary_email_exists_in_db = true)) ∧
    (c ∈ filterUniqueEmailsFromCSV lookups parsedRows ↔
      ¬ (c.email_exists_in_db = true ∧ c.secondary_email_exists_in_db = true)) ∧
    (∀ c', c' ∈ filterUniqueEmailsFromCSV lookups parsedRows →
      ∃ j, ∃ hj : j < parsedRows.length,
        (emailCheckWorker (lookups j) (parsedRows.get ⟨j, hj⟩)).outcome =
          WorkerOutcome.classified c' true) := by
  have key : ∀ (lookup : Lookup) (row : Row) (c : ClassifiedRow) (pushed : Bool),
      (emailCheckWorker lookup row).outcome = WorkerOutcome.classified c pushed →
      (pushed = true ↔
        ¬ (c.email_exists_in_db = true ∧ c.secondary_email_exists_in_db = true)) := by
    intro lookup row c pushed hc
    obtain ⟨_, _, _, _, _, _, _, _, _, hp⟩ := emailCheckWorker_classified lookup row c pushed hc
    rw [hp]
    cases c.email_exists_in_db <;> cases c.secondary_email_exists_in_db <;> simp
  have members : ∀ c', c' ∈ filterUniqueEmailsFromCSV lookups parsedRows ↔
      ∃ j, ∃ hj : j < parsedRows.length,
        (emailCheckWorker (lookups j) (parsedRows.get ⟨j, hj⟩)).outcome =
          WorkerOutcome.classified c' true := by
    intro c'
    unfold filterUniqueEmailsFromCSV
    rw [mem_uniqueRowsFrom]
    simp only [Nat.zero_add]
  obtain ⟨_, _, _, _, _, _, hrow, _, _, _⟩ :=
    emailCheckWorker_classified (lookups i) (parsedRows.get ⟨i, h⟩) c pushed hrun
  refine ⟨hrow, key _ _ _ _ hrun, ?_, fun c' hc' => (members c').1 hc'⟩
  constructor
  · intro hmem
    obtain ⟨j, hj, hout⟩ := (members c).1 hmem
    exact (key _ _ _ _ hout).1 rfl
  · intro hnot
    have hp : pushed = true := (key _ _ _ _ hrun).2 hnot
    subst hp
    exact (members c).2 ⟨i, h, hrun⟩

/-- C5 (counterexample): the secondary address of the row is empty and the
    store fails the queries for its primary address. The worker ends in the
    `catch` of line 283 before lines 270-271, so the row gets neither flag:
    `secondary_email_exists_in_db` is not `true`, though the address is empty. -/
theorem C5_failed_row_has_no_flag :
    rowNewPrimary.get "category_survey_email_address" = some "" ∧
    (emailCheckWorker (lookupSecondRowFails 1) rowNewPrimary).outcome =
      WorkerOutcome.failed "Error: read ECONNRESET" ∧
    WorkerOutcome.secondary_email_exists_in_db
      (emailCheckWorker (lookupSecondRowFails 1) rowNewPrimary).outcome = none ∧
    WorkerOutcome.secondary_email_exists_in_db
      (emailCheckWorker (lookupSecondRowFails 1) rowNewPrimary).outcome ≠ some true ∧
    WorkerOutcome.email_exists_in_db
      (emailCheckWorker (lookupSecondRowFails 1) rowNewPrimary).outcome = none := by
  decide

/-- C5: for a row that the worker classifies (it reaches lines 270-271),
    each flag is true when its address is empty; when the address is not
    empty the flag is true exactly when the query of `zoho_contacts` or the
    query of `sots_contacts` for that address answers with a count above
    zero; so a flag is false only when its address is non-empty and neither
    table answers with a count above zero. -/
theorem C5_flag_values (lookup : Lookup) (row : Row) (c : ClassifiedRow) (pushed : Bool)
    (hrun : (emailCheckWorker lookup row).outcome = WorkerOutcome.classified c pushed) :
    ∃ businessEmail categoryEmail,
      row.get "business_email_address" = some businessEmail ∧
      row.get "category_survey_email_address" = some categoryEmail ∧
      (businessEmail = "" → c.email_exists_in_db = true) ∧
      (businessEmail ≠ "" → (c.email_exists_in_db = true ↔
        ((∃ count, lookup EmailField.business_email_address Table.zoho_contacts businessEmail =
            QueryResult.result (some count) ∧ 0 < count) ∨
         (∃ count, lookup EmailField.business_email_address Table.sots_contacts businessEmail =
            QueryResult.result (some count) ∧ 0 < count)))) ∧
      (c.email_exists_in_db = false → businessEmail ≠ "" ∧
        (∀ count, lookup EmailField.business_email_address Table.zoho_contacts businessEmail =
          QueryResult.result (some count) → count = 0) ∧
        (∀ count, lookup EmailField.business_email_address Table.sots_contacts businessEmail =
          QueryResult.result (some count) → count = 0)) ∧
      (categoryEmail = "" → c.secondary_email_exists_in_db = true) ∧
      (categoryEmail ≠ "" → (c.secondary_email_exists_in_db = true ↔
        ((∃ count, lookup EmailField.category_survey_email_address Table.zoho_contacts
            categoryEmail = QueryResult.result (some count) ∧ 0 < count) ∨
         (∃ count, lookup EmailField.category_survey_email_address Table.sots_contacts
            categoryEmail = QueryResult.result (some count) ∧ 0 < count)))) ∧
      (c.secondary_email_exists_in_db = false → categoryEmail ≠ "" ∧
        (∀ count, lookup EmailField.category_survey_email_address Table.zoho_contacts
          categoryEmail = QueryResult.result (some count) → count = 0) ∧
        (∀ count, lookup EmailField.category_survey_email_address Table.sots_contacts
          categoryEmail = QueryResult.result (some count) → count = 0)) := by
  obtain ⟨businessEmail, categoryEmail, hb, hc, _, _, _, h1, h2, _⟩ :=
    emailCheckWorker_classified lookup row c pushed hrun
  have entry : ∀ (field : EmailField) (email : String) (flag : Bool),
      flag = (resultEntry lookup field Table.zoho_contacts email ||
        resultEntry lookup field Table.sots_contacts email) →
      (email = "" → flag = true) ∧
      (email ≠ "" → (flag = true ↔
        ((∃ count, lookup field Table.zoho_contacts email =
            QueryResult.result (some count) ∧ 0 < count) ∨
         (∃ count, lookup field Table.sots_contacts email =
            QueryResult.result (some count) ∧ 0 < count)))) ∧
      (flag = false → email ≠ "" ∧
        (∀ count, lookup field Table.zoho_contacts email =
          QueryResult.result (some count) → count = 0) ∧
        (∀ count, lookup field Table.sots_contacts email =
          QueryResult.result (some count) → count = 0)) := by
    intro field email flag hflag
    by_cases he : email = ""
    · subst he
      have : flag = true := by rw [hflag]; simp [resultEntry]
      exact ⟨fun _ => this, fun hne => absurd rfl hne, fun hf => by simp [this] at hf⟩
    · have hv : flag = ((lookup field Table.zoho_contacts email).found ||
          (lookup field Table.sots_contacts email).found) := by
        rw [hflag]; simp [resultEntry, he]
      have hiff : flag = true ↔
          ((∃ count, lookup field Table.zoho_contacts email =
              QueryResult.result (some count) ∧ 0 < count) ∨
           (∃ count, lookup field Table.sots_contacts email =
              QueryResult.result (some count) ∧ 0 < count)) := by
        rw [hv, Bool.or_eq_true, found_iff, found_iff]
      refine ⟨fun h => absurd h he, fun _ => hiff, fun hf => ⟨he, ?_, ?_⟩⟩
      · intro count hq
        by_contra hne
        have : flag = true := hiff.2 (Or.inl ⟨count, hq, Nat.pos_of_ne_zero hne⟩)
        rw [hf] at this
        exact Bool.noConfusion this
      · intro count hq
        by_contra hne
        have : flag = true := hiff.2 (Or.inr ⟨count, hq, Nat.pos_of_ne_zero hne⟩)
        rw [hf] at this
        exact Bool.noConfusion this
  obtain ⟨b1, b2, b3⟩ := entry EmailField.business_email_address businessEmail _ h1
  obtain ⟨c1, c2, c3⟩ := entry EmailField.category_survey_email_address categoryEmail _ h2
  exact ⟨businessEmail, categoryEmail, hb, hc, b1, b2, b3, c1, c2, c3⟩

/-- Witness of C4: in a batch of two rows, the row with an empty secondary
    address and a primary address found nowhere is returned, and the row with
    both addresses found is not. -/
theorem C4_survival_rule_witness :
    (emailCheckWorker (sampleLookups 0) (sampleRows.get ⟨0, by decide⟩)).outcome =
      WorkerOutcome.classified ⟨rowNewPrimary, false, true⟩ true ∧
    (emailCheckWorker (sampleLookups 1) (sampleRows.get ⟨1, by decide⟩)).outcome =
      WorkerOutcome.classified ⟨rowTwoAddresses, true, true⟩ false ∧
    (⟨rowNewPrimary, false, true⟩ : ClassifiedRow) ∈
      filterUniqueEmailsFromCSV sampleLookups sampleRows ∧
    (⟨rowTwoAddresses, true, true⟩ : ClassifiedRow) ∉
      filterUniqueEmailsFromCSV sampleLookups sampleRows :=
  ⟨by decide, by decide,
    (C4_survival_rule sampleLookups sampleRows 0 (by decide) ⟨rowNewPrimary, false, true⟩ true
      (by decide)).2.2.1.2 (by decide),
    fun hmem =>
      (C4_survival_rule sampleLookups sampleRows 1 (by decide) ⟨rowTwoAddresses, true, true⟩
        false (by decide)).2.2.1.1 hmem ⟨rfl, rfl⟩⟩

/-- Witness of C5: a row with a non-empty primary address for which both
    tables answer with the count 0 and an empty secondary address gets the
    flags `false` and `true`. -/
theorem C5_flag_values_witness :
    (emailCheckWorker lookupNothingFound rowNewPrimary).outcome =
      WorkerOutcome.classified ⟨rowNewPrimary, false, true⟩ true ∧
    ∃ businessEmail categoryEmail,
      rowNewPrimary.get "business_email_address" = some businessEmail ∧
      rowNewPrimary.get "category_survey_email_address" = some categoryEmail ∧
      (businessEmail ≠ "" ∧
        (∀ count, lookupNothingFound EmailField.business_email_address Table.zoho_contacts
          businessEmail = QueryResult.result (some count) → count = 0) ∧
        (∀ count, lookupNothingFound EmailField.business_email_address Table.sots_contacts
          businessEmail = QueryResult.result (some count) → count = 0)) ∧
      categoryEmail = "" := by
  have hrun : (emailCheckWorker lookupNothingFound rowNewPrimary).outcome =
      WorkerOutcome.classified ⟨rowNewPrimary, false, true⟩ true := by decide
  obtain ⟨businessEmail, categoryEmail, hb, hc, _, _, h3, _, h5, _⟩ :=
    C5_flag_values lookupNothingFound rowNewPrimary ⟨rowNewPrimary, false, true⟩ true hrun
  refine ⟨hrun, businessEmail, categoryEmail, hb, hc, h3 rfl, ?_⟩
  have hc' : rowNewPrimary.get "category_survey_email_address" = some "" := by decide
  rw [hc'] at hc
  exact (Option.some.inj hc).symm

/-- C6 (the code at the failing inputs): for a row whose primary or secondary
    address contains "zenbusiness.com", the worker throws at the assignment to
    the `const` binding (lines 202, 204): it issues no query, sets no flag and
    ends with `cb(err)`, and the row is not returned, although its other
    address is non-empty and found in neither table. -/
theorem C6_blocklisted_address_fails_the_row :
    containsPredefinedString "agent@zenbusiness.com" = true ∧
    emailCheckWorker lookupNothingFound rowAgentPrimary =
      ⟨[], WorkerOutcome.failed constAssignmentError⟩ ∧
    emailCheckWorker lookupNothingFound rowAgentSecondary =
      ⟨[], WorkerOutcome.failed constAssignmentError⟩ ∧
    filterUniqueEmailsFromCSV (fun _ => lookupNothingFound)
      [rowAgentPrimary, rowAgentSecondary] = [] := by
  decide

/-! ## Theorems: run orchestrator -/

theorem insertFolderCalls_snoc (t : Trace) (call : Call)
    (h : ∀ folderId folderName, call ≠ Call.sql_insertFolder folderId folderName) :
    insertFolderCalls (t ++ [call]) = insertFolderCalls t := by
  cases call <;> simp [insertFolderCalls, List.filterMap_append] at h ⊢

theorem insertFolderCalls_pushToReplyIo (w : World) (fileName : String)
    (campaignId : Option Nat) (t : Trace) :
    insertFolderCalls (pushToReplyIo w fileName campaignId t).1 = insertFolderCalls t := by
  unfold pushToReplyIo
  rcases h1 : w.filterUniqueEmailsFromCSV t fileName with uniqueRows | e | _
  · rcases h2 : w.pushContacts (t ++ [Call.filterUniqueEmailsFromCSV fileName]) uniqueRows
      campaignId with u | e | _
    · simp [h2, insertFolderCalls, List.filterMap_append]
    · simp [h2, insertFolderCalls, List.filterMap_append]
    · simp [h2, insertFolderCalls, List.filterMap_append]
  · simp [insertFolderCalls, List.filterMap_append]
  · simp [insertFolderCalls, List.filterMap_append]

theorem pushToReplyIo_settles (w : World) (hw : w.settles) (fileName : String)
    (campaignId : Option Nat) (t : Trace) :
    (pushToReplyIo w fileName campaignId t).2 ≠ Settlement.pending := by
  unfold pushToReplyIo
  rcases h1 : w.filterUniqueEmailsFromCSV t fileName with uniqueRows | e | _
  · rcases h2 : w.pushContacts (t ++ [Call.filterUniqueEmailsFromCSV fileName]) uniqueRows
      campaignId with u | e | _
    · simp [h2]
    · simp [h2]
    · exact absurd h2 (hw.2 _ _ _)
  · simp
  · exact absurd h1 (hw.1 _ _)

theorem insertFolderCalls_campaign (w : World) (campaignName : String) (t : Trace) :
    insertFolderCalls (processCSVs.campaign w campaignName t).1 = insertFolderCalls t := by
  unfold processCSVs.campaign
  rcases h1 : w.CheckIfCampaignExists t campaignName with e | campaignResult
  · simp [insertFolderCalls, List.filterMap_append]
  · cases campaignResult with
    | notFound =>
      rcases h2 : w.CreateNewCampaign (t ++ [Call.CheckIfCampaignExists campaignName])
        campaignName with e | campaignId
      · simp [h2, insertFolderCalls, List.filterMap_append]
      · simp [h2, insertFolderCalls, List.filterMap_append]
    | object id =>
      cases id with
      | none => simp [insertFolderCalls, List.filterMap_append]
      | some id =>
        by_cases h : id = 0 <;> simp [insertFolderCalls, List.filterMap_append, h]
    | text s => simp [insertFolderCalls, List.filterMap_append]
    | null => simp [insertFolderCalls, List.filterMap_append]
    | other => simp [insertFolderCalls, List.filterMap_append]

theorem markFile_fst (w : World) (folder : Folder) (file : DriveItem) (t : Trace) :
    (processCSVs.markFile w folder file t).1 =
      t ++ [Call.sql_insertProcessedFile folder.id file.id] := by
  unfold processCSVs.markFile
  cases w.sql_insertProcessedFile t folder.id file.id <;> rfl

theorem markFile_settles (w : World) (folder : Folder) (file : DriveItem) (t : Trace) :
    (processCSVs.markFile w folder file t).2 ≠ Settlement.pending := by
  unfold processCSVs.markFile
  cases w.sql_insertProcessedFile t folder.id file.id <;> simp

theorem markFolder_fst (w : World) (folder : Folder) (t : Trace) :
    (main.markFolder w folder t).1 = t ++ [Call.sql_insertFolder folder.id folder.name] := by
  unfold main.markFolder
  cases w.sql_insertFolder t folder.id folder.name <;> rfl

theorem markFolder_settles (w : World) (folder : Folder) (t : Trace) :
    (main.markFolder w folder t).2 ≠ Settlement.pending := by
  unfold main.markFolder
  cases w.sql_insertFolder t folder.id folder.name <;> simp

theorem insertFolderCalls_tryFile (w : World) (folder : Folder) (file : DriveItem) (t : Trace) :
    insertFolderCalls (processCSVs.tryFile w folder file t).1 = insertFolderCalls t := by
  unfold processCSVs.tryFile
  cases w.sql_checkFileExists t folder.id file.id with
  | error e => simp [insertFolderCalls, List.filterMap_append]
  | ok isCSVProcessed =>
    cases isCSVProcessed with
    | true => simp [insertFolderCalls, List.filterMap_append]
    | false =>
      simp only
      cases drive_downloadCsvAndFilterColumns w
          (t ++ [Call.sql_checkFileExists folder.id file.id]) file.id file.name with
      | error e => simp [insertFolderCalls, List.filterMap_append]
      | ok result =>
        simp only
        have hc := insertFolderCalls_campaign w (folder.name ++ "_" ++ file.name)
          (t ++ [Call.sql_checkFileExists folder.id file.id] ++
            [Call.drive_downloadCsvAndFilterColumns file.id file.name])
        rcases hcamp : processCSVs.campaign w (folder.name ++ "_" ++ file.name)
          (t ++ [Call.sql_checkFileExists folder.id file.id] ++
            [Call.drive_downloadCsvAndFilterColumns file.id file.name]) with ⟨t3, r⟩
        rw [hcamp] at hc
        have ht3 : insertFolderCalls t3 = insertFolderCalls t := by
          rw [hc]; simp [insertFolderCalls, List.filterMap_append]
        have hmark : ∀ t4, insertFolderCalls t4 = insertFolderCalls t →
            insertFolderCalls (processCSVs.markFile w folder file t4).1 =
              insertFolderCalls t := by
          intro t4 h4
          rw [markFile_fst, insertFolderCalls_snoc _ _ (by simp), h4]
        cases r with
        | error e => simpa using ht3
        | ok campaignId =>
          simp only
          cases result.processed with
          | false => simpa using hmark t3 ht3
          | true =>
            have hp := insertFolderCalls_pushToReplyIo w file.name campaignId t3
            rcases hpush : pushToReplyIo w file.name campaignId t3 with ⟨t4, r4⟩
            rw [hpush] at hp
            cases r4 with
            | pending => simpa using hp.trans ht3
            | resolved v => simpa using hmark t4 (hp.trans ht3)
            | rejected e => simpa using hmark t4 (hp.trans ht3)

theorem tryFile_settles (w : World) (hw : w.settles) (folder : Folder) (file : DriveItem)
    (t : Trace) :
    (processCSVs.tryFile w folder file t).2 ≠ Settlement.pending := by
  unfold processCSVs.tryFile
  cases w.sql_checkFileExists t folder.id file.id with
  | error e => simp
  | ok isCSVProcessed =>
    cases isCSVProcessed with
    | true => simp
    | false =>
      simp only
      cases drive_downloadCsvAndFilterColumns w
          (t ++ [Call.sql_checkFileExists folder.id file.id]) file.id file.name with
      | error e => simp
      | ok result =>
        simp only
        rcases hcamp : processCSVs.campaign w (folder.name ++ "_" ++ file.name)
          (t ++ [Call.sql_checkFileExists folder.id file.id] ++
            [Call.drive_downloadCsvAndFilterColumns file.id file.name]) with ⟨t3, r⟩
        cases r with
        | error e => simp
        | ok campaignId =>
          simp only
          cases result.processed with
          | false => simpa using markFile_settles w folder file t3
          | true =>
            have hp := pushToReplyIo_settles w hw file.name campaignId t3
            rcases hpush : pushToReplyIo w file.name campaignId t3 with ⟨t4, r4⟩
            rw [hpush] at hp
            cases r4 with
            | pending => exact absurd rfl hp
            | resolved v => simpa using markFile_settles w folder file t4
            | rejected e => simpa using markFile_settles w folder file t4

theorem insertFolderCalls_file (w : World) (folder : Folder) (file : DriveItem) (t : Trace) :
    insertFolderCalls (processCSVs.file w folder file t) = insertFolderCalls t :=
  insertFolderCalls_tryFile w folder file t

theorem insertFolderCalls_files (w : World) (folder : Folder) (files : List DriveItem)
    (t : Trace) :
    insertFolderCalls (processCSVs.files w folder files t).1 = insertFolderCalls t := by
  induction files generalizing t with
  | nil => rfl
  | cons file rest ih =>
    unfold processCSVs.files
    have h := insertFolderCalls_tryFile w folder file t
    rcases htry : processCSVs.tryFile w folder file t with ⟨t1, r⟩
    rw [htry] at h
    cases r with
    | pending => simpa using h
    | resolved v => simpa using (ih t1).trans h
    | rejected e => simpa using (ih t1).trans h

theorem files_settles (w : World) (hw : w.settles) (folder : Folder) (files : List DriveItem)
    (t : Trace) :
    (processCSVs.files w folder files t).2 = Settlement.resolved () := by
  induction files generalizing t with
  | nil => rfl
  | cons file rest ih =>
    unfold processCSVs.files
    have h := tryFile_settles w hw folder file t
    rcases htry : processCSVs.tryFile w folder file t with ⟨t1, r⟩
    rw [htry] at h
    cases r with
    | pending => exact absurd rfl h
    | resolved v => simpa using ih t1
    | rejected e => simpa using ih t1

theorem insertFolderCalls_processCSVs (w : World) (folder : Folder) (t : Trace) :
    insertFolderCalls (processCSVs w folder t).1 = insertFolderCalls t := by
  unfold processCSVs
  rcases h : w.drive_listCSVFiles (t ++ [Call.processCSVs folder.id folder.name]) folder.id
    with e | files
  · simp [h, insertFolderCalls, List.filterMap_append]
  · simp only [h]
    have hf := insertFolderCalls_files w folder files
      (t ++ [Call.processCSVs folder.id folder.name] ++ [Call.drive_listCSVFiles folder.id])
    rcases hfiles : processCSVs.files w folder files
      (t ++ [Call.processCSVs folder.id folder.name] ++ [Call.drive_listCSVFiles folder.id])
      with ⟨t2, r⟩
    rw [hfiles] at hf
    have ht2 : insertFolderCalls t2 = insertFolderCalls t := by
      rw [hf]; simp [insertFolderCalls, List.filterMap_append]
    cases r <;> simpa using ht2

theorem processCSVs_settles (w : World) (hw : w.settles) (folder : Folder) (t : Trace) :
    (processCSVs w folder t).2 ≠ Settlement.pending := by
  unfold processCSVs
  rcases h : w.drive_listCSVFiles (t ++ [Call.processCSVs folder.id folder.name]) folder.id
    with e | files
  · simp [h]
  · simp only [h]
    have hf := files_settles w hw folder files
      (t ++ [Call.processCSVs folder.id folder.name] ++ [Call.drive_listCSVFiles folder.id])
    rcases hfiles : processCSVs.files w folder files
      (t ++ [Call.processCSVs folder.id folder.name] ++ [Call.drive_listCSVFiles folder.id])
      with ⟨t2, r⟩
    rw [hfiles] at hf
    simp only at hf
    subst hf
    simp

/-- The turn of an unprocessed folder whose `processCSVs` settles: the run
    of `processCSVs`, then `sql_insertFolder` (`src/index.js:33-36`). -/
theorem tryFolder_of_settled (w : World) (folder : Folder) (t : Trace)
    (hfolder : folder.processed = false)
    (hsettled : (processCSVs w folder t).2 ≠ Settlement.pending) :
    main.tryFolder w folder t = main.markFolder w folder (processCSVs w folder t).1 := by
  unfold main.tryFolder
  rcases h : processCSVs w folder t with ⟨t1, r⟩
  rw [h] at hsettled
  cases r with
  | pending => exact absurd rfl hsettled
  | resolved v => simp [hfolder]
  | rejected e => simp [hfolder]

/-- The turn of an unprocessed folder whose `processCSVs` never settles:
    `main` stays at the `await` of `src/index.js:34`. -/
theorem tryFolder_of_pending (w : World) (folder : Folder) (t : Trace)
    (hfolder : folder.processed = false)
    (hpending : (processCSVs w folder t).2 = Settlement.pending) :
    main.tryFolder w folder t = ((processCSVs w folder t).1, Settlement.pending) := by
  unfold main.tryFolder
  rcases h : processCSVs w folder t with ⟨t1, r⟩
  rw [h] at hpending
  simp only at hpending
  subst hpending
  simp [hfolder]

theorem tryFolder_of_processed (w : World) (folder : Folder) (t : Trace)
    (hfolder : folder.processed = true) :
    main.tryFolder w folder t = main.markFolder w folder t := by
  unfold main.tryFolder
  simp [hfolder]

theorem insertFolderCalls_folder (w : World) (hw : w.settles) (folder : Folder) (t : Trace) :
    (main.tryFolder w folder t).2 ≠ Settlement.pending ∧
    insertFolderCalls (main.folder w folder t) =
      insertFolderCalls t ++ [(folder.id, folder.name)] := by
  unfold main.folder
  cases hfolder : folder.processed with
  | true =>
    rw [tryFolder_of_processed w folder t hfolder, markFolder_fst]
    exact ⟨markFolder_settles w folder t, by simp [insertFolderCalls, List.filterMap_append]⟩
  | false =>
    rw [tryFolder_of_settled w folder t hfolder (processCSVs_settles w hw folder t),
      markFolder_fst]
    refine ⟨markFolder_settles w folder _, ?_⟩
    have h := insertFolderCalls_processCSVs w folder t
    simp only [insertFolderCalls, List.filterMap_append] at h ⊢
    simp [h]

theorem insertFolderCalls_folders (w : World) (hw : w.settles) (chk_folders : List Folder)
    (t : Trace) :
    insertFolderCalls (main.folders w chk_folders t) =
      insertFolderCalls t ++ chk_folders.map (fun folder => (folder.id, folder.name)) := by
  induction chk_folders generalizing t with
  | nil => simp [main.folders]
  | cons folder rest ih =>
    unfold main.folders
    have h := insertFolderCalls_folder w hw folder t
    unfold main.folder at h
    rcases htry : main.tryFolder w folder t with ⟨t1, r⟩
    rw [htry] at h
    cases r with
    | pending => exact absurd rfl h.1
    | resolved v =>
      simp only
      rw [ih t1, h.2]
      simp
    | rejected e =>
      simp only
      rw [ih t1, h.2]
      simp

/-- Whatever the collaborators answer, the `sql_insertFolder` calls of the
    loop of `main` are those for a first part of `chk_folders`, in order. -/
theorem insertFolderCalls_folders_prefix (w : World) (chk_folders : List Folder) (t : Trace) :
    ∃ k, insertFolderCalls (main.folders w chk_folders t) =
      insertFolderCalls t ++ (chk_folders.take k).map (fun folder => (folder.id, folder.name)) := by
  induction chk_folders generalizing t with
  | nil => exact ⟨0, by simp [main.folders]⟩
  | cons folder rest ih =>
    unfold main.folders
    rcases htry : main.tryFolder w folder t with ⟨t1, r⟩
    have hmark : r ≠ Settlement.pending →
        insertFolderCalls t1 = insertFolderCalls t ++ [(folder.id, folder.name)] := by
      intro hr
      cases hfolder : folder.processed with
      | true =>
        rw [tryFolder_of_processed w folder t hfolder] at htry
        have h1 := markFolder_fst w folder t
        rw [htry] at h1
        simp only at h1
        rw [h1]
        simp [insertFolderCalls, List.filterMap_append]
      | false =>
        by_cases hp : (processCSVs w folder t).2 = Settlement.pending
        · rw [tryFolder_of_pending w folder t hfolder hp] at htry
          exact absurd (congrArg Prod.snd htry).symm hr
        · rw [tryFolder_of_settled w folder t hfolder hp] at htry
          have h1 := markFolder_fst w folder (processCSVs w folder t).1
          rw [htry] at h1
          simp only at h1
          rw [h1]
          have h := insertFolderCalls_processCSVs w folder t
          simp only [insertFolderCalls, List.filterMap_append] at h ⊢
          simp [h]
    have hpend : r = Settlement.pending → insertFolderCalls t1 = insertFolderCalls t := by
      intro hr
      subst hr
      cases hfolder : folder.processed with
      | true =>
        rw [tryFolder_of_processed w folder t hfolder] at htry
        exact absurd (congrArg Prod.snd htry) (markFolder_settles w folder t)
      | false =>
        by_cases hp : (processCSVs w folder t).2 = Settlement.pending
        · rw [tryFolder_of_pending w folder t hfolder hp] at htry
          have h1 : (processCSVs w folder t).1 = t1 := congrArg Prod.fst htry
          rw [← h1]
          exact insertFolderCalls_processCSVs w folder t
        · rw [tryFolder_of_settled w folder t hfolder hp] at htry
          exact absurd (congrArg Prod.snd htry) (markFolder_settles w folder _)
    cases r with
    | pending => exact ⟨0, by simpa using hpend rfl⟩
    | resolved v =>
      obtain ⟨k, hk⟩ := ih t1
      exact ⟨k + 1, by simp only; rw [hk, hmark (by simp)]; simp⟩
    | rejected e =>
      obtain ⟨k, hk⟩ := ih t1
      exact ⟨k + 1, by simp only; rw [hk, hmark (by simp)]; simp⟩

/-- C7 (the code at the failing inputs): for an unprocessed file whose
    classification rejects, and for one whose dispatch rejects, `pushToReplyIo`
    returns the error as a string, `processCSVs` drops it, and
    `sql_insertProcessedFile` is called all the same. -/
theorem C7_file_marked_after_failed_batch :
    (pushToReplyIo worldClassifierFails "Norwalk.csv" (some 7) []).2 =
      Settlement.resolved (some ("Failed to push contacts to replyio: " ++
        "An error occurred while filtering unique emails from csv file: " ++
        "Error: ENOENT: no such file or directory, open csv_storage/filtered_Norwalk.csv")) ∧
    processCSVs.file worldClassifierFails sampleFolder sampleFile [] =
      [ Call.sql_checkFileExists "folder-2023-09" "file-1",
        Call.drive_downloadCsvAndFilterColumns "file-1" "Norwalk.csv",
        Call.CheckIfCampaignExists "2023-09_Norwalk.csv",
        Call.filterUniqueEmailsFromCSV "Norwalk.csv",
        Call.sql_insertProcessedFile "folder-2023-09" "file-1" ] ∧
    (pushToReplyIo worldDispatchFails "Norwalk.csv" (some 7) []).2 =
      Settlement.resolved (some "Failed to push contacts to replyio: Error: queue failure") ∧
    processCSVs.file worldDispatchFails sampleFolder sampleFile [] =
      [ Call.sql_checkFileExists "folder-2023-09" "file-1",
        Call.drive_downloadCsvAndFilterColumns "file-1" "Norwalk.csv",
        Call.CheckIfCampaignExists "2023-09_Norwalk.csv",
        Call.filterUniqueEmailsFromCSV "Norwalk.csv",
        Call.pushContacts [⟨rowNewPrimary, false, true⟩] (some 7),
        Call.sql_insertProcessedFile "folder-2023-09" "file-1" ] := by
  decide

theorem tryFile_of_processed (w : World) (folder : Folder) (file : DriveItem) (t : Trace)
    (hfile : w.sql_checkFileExists t folder.id file.id = Except.ok true) :
    processCSVs.tryFile w folder file t =
      (t ++ [Call.sql_checkFileExists folder.id file.id], Settlement.resolved ()) := by
  unfold processCSVs.tryFile
  simp only [hfile]

theorem file_of_processed (w : World) (folder : Folder) (file : DriveItem) (t : Trace)
    (hfile : w.sql_checkFileExists t folder.id file.id = Except.ok true) :
    processCSVs.file w folder file t = t ++ [Call.sql_checkFileExists folder.id file.id] := by
  unfold processCSVs.file
  rw [tryFile_of_processed w folder file t hfile]

theorem folder_of_processed (w : World) (folder : Folder) (t : Trace)
    (hfolder : folder.processed = true) :
    main.folder w folder t = t ++ [Call.sql_insertFolder folder.id folder.name] := by
  unfold main.folder
  rw [tryFolder_of_processed w folder t hfolder, markFolder_fst]

theorem folders_of_processed (w : World) (chk_folders : List Folder)
    (hfolders : ∀ f, f ∈ chk_folders → f.processed = true) (t : Trace) :
    main.folders w chk_folders t =
      t ++ chk_folders.map (fun f => Call.sql_insertFolder f.id f.name) := by
  induction chk_folders generalizing t with
  | nil => simp [main.folders]
  | cons f rest ih =>
    unfold main.folders
    have hf := hfolders f (List.mem_cons_self _ _)
    have hfst := markFolder_fst w f t
    have hsnd := markFolder_settles w f t
    rw [tryFolder_of_processed w f t hf]
    rcases hmark : main.markFolder w f t with ⟨t1, r⟩
    rw [hmark] at hfst hsnd
    simp only at hfst
    subst hfst
    cases r with
    | pending => exact absurd rfl hsnd
    | resolved v =>
      simp only
      rw [ih (fun g hg => hfolders g (List.mem_cons_of_mem _ hg))]
      simp
    | rejected e =>
      simp only
      rw [ih (fun g hg => hfolders g (List.mem_cons_of_mem _ hg))]
      simp

theorem insertFolderCalls_map (t : Trace) (chk_folders : List Folder) :
    insertFolderCalls (t ++ chk_folders.map (fun f => Call.sql_insertFolder f.id f.name)) =
      insertFolderCalls t ++ chk_folders.map (fun f => (f.id, f.name)) := by
  induction chk_folders generalizing t with
  | nil => simp
  | cons f rest ih =>
    have h := ih (t ++ [Call.sql_insertFolder f.id f.name])
    simp only [List.map_cons, List.append_assoc, List.singleton_append] at h ⊢
    rw [h]
    simp [insertFolderCalls, List.filterMap_append]

/-- C8: a folder reported as processed gets no `processCSVs` call: its turn
    of the loop of `main` makes the single call `sql_insertFolder`; a file
    reported as processed gets no download, campaign lookup or creation,
    classification or dispatch: its turn of the loop of `processCSVs` makes
    the single call `sql_checkFileExists`. The same holds along whole loops
    when every folder, or every file of a folder, is reported as processed. -/
theorem C8_processed_units_skipped (w : World) (t : Trace)
    (processedFolder : Folder) (hfolder : processedFolder.processed = true)
    (folder : Folder) (file : DriveItem)
    (hfile : w.sql_checkFileExists t folder.id file.id = Except.ok true)
    (chk_folders : List Folder) (hfolders : ∀ f, f ∈ chk_folders → f.processed = true)
    (csv_files : List DriveItem)
    (hfiles : ∀ trace f, f ∈ csv_files →
      w.sql_checkFileExists trace folder.id f.id = Except.ok true) :
    main.folder w processedFolder t =
      t ++ [Call.sql_insertFolder processedFolder.id processedFolder.name] ∧
    processCSVs.file w folder file t = t ++ [Call.sql_checkFileExists folder.id file.id] ∧
    main.folders w chk_folders t =
      t ++ chk_folders.map (fun f => Call.sql_insertFolder f.id f.name) ∧
    csv_files.foldl (fun trace f => processCSVs.file w folder f trace) t =
      t ++ csv_files.map (fun f => Call.sql_checkFileExists folder.id f.id) ∧
    processCSVs.files w folder csv_files t =
      (t ++ csv_files.map (fun f => Call.sql_checkFileExists folder.id f.id),
        Settlement.resolved ()) := by
  refine ⟨folder_of_processed w processedFolder t hfolder,
    file_of_processed w folder file t hfile, ?_, ?_, ?_⟩
  · exact folders_of_processed w chk_folders hfolders t
  · clear hfile
    induction csv_files generalizing t with
    | nil => simp
    | cons f rest ih =>
      rw [List.foldl_cons, file_of_processed w folder f t (hfiles t f (List.mem_cons_self _ _)),
        ih _ (fun trace g hg => hfiles trace g (List.mem_cons_of_mem _ hg))]
      simp
  · clear hfile
    induction csv_files generalizing t with
    | nil => simp [processCSVs.files]
    | cons f rest ih =>
      unfold processCSVs.files
      rw [tryFile_of_processed w folder f t (hfiles t f (List.mem_cons_self _ _))]
      simp only
      rw [ih _ (fun trace g hg => hfiles trace g (List.mem_cons_of_mem _ hg))]
      simp

/-- Witness of C8: a run in which the store reports everything as processed. -/
theorem C8_processed_units_skipped_witness :
    sampleProcessedFolder.processed = true ∧
    worldAllProcessed.sql_checkFileExists [] sampleFolder.id sampleFile.id = Except.ok true ∧
    main.folder worldAllProcessed sampleProcessedFolder [] =
      [Call.sql_insertFolder "folder-2023-08" "2023-08"] ∧
    processCSVs.file worldAllProcessed sampleFolder sampleFile [] =
      [Call.sql_checkFileExists "folder-2023-09" "file-1"] :=
  have h := C8_processed_units_skipped worldAllProcessed [] sampleProcessedFolder rfl
    sampleFolder sampleFile rfl [sampleProcessedFolder]
    (fun f hf => by rw [List.mem_singleton.1 hf]; rfl)
    [sampleFile] (fun _ _ _ => rfl)
  ⟨rfl, rfl, h.1, h.2.1⟩

/-- When every promise of the run settles, an unprocessed folder is marked
    after its `processCSVs`, whatever the collaborators answer inside it, and
    the loop of `main` marks every folder of `chk_folders`, in order. -/
theorem folders_marked_when_settled (w : World) (hw : w.settles) (t : Trace) (folder : Folder)
    (hfolder : folder.processed = false) (chk_folders : List Folder) :
    main.folder w folder t =
      (processCSVs w folder t).1 ++ [Call.sql_insertFolder folder.id folder.name] ∧
    (∀ error,
      w.drive_listCSVFiles (t ++ [Call.processCSVs folder.id folder.name]) folder.id =
        Except.error error →
      main.folder w folder t =
        t ++ [Call.processCSVs folder.id folder.name, Call.drive_listCSVFiles folder.id,
          Call.sql_insertFolder folder.id folder.name]) ∧
    insertFolderCalls (main.folders w chk_folders t) =
      insertFolderCalls t ++ chk_folders.map (fun f => (f.id, f.name)) := by
  have hstep : main.folder w folder t =
      (processCSVs w folder t).1 ++ [Call.sql_insertFolder folder.id folder.name] := by
    unfold main.folder
    rw [tryFolder_of_settled w folder t hfolder (processCSVs_settles w hw folder t),
      markFolder_fst]
  refine ⟨hstep, ?_, insertFolderCalls_folders w hw chk_folders t⟩
  intro error herr
  rw [hstep]
  unfold processCSVs
  simp [herr]

/-- C9 (the code at the failing input): the one surviving row of the first
    file of the first folder has no `name`. No payload can be built for it
    (`src/replyio.js:166` throws inside the `async` executor), so the promise
    of `pushContacts` stays pending whatever the queue emits, `pushToReplyIo`
    and `processCSVs` never return, and the run of `main` ends at the call of
    `pushContacts`: neither the file nor the folder is marked, and the second
    folder is never visited. -/
theorem C9_pending_dispatch_stops_the_run :
    pushContacts.contactData asciiLower (some 7) rowWithoutName =
      Except.error "TypeError: Cannot read properties of undefined (reading 'replace')" ∧
    pushContacts.promise asciiLower [rowWithoutName] (some 7) QueueEvent.drain =
      Settlement.pending ∧
    pushContacts.promise asciiLower [rowWithoutName] (some 7) QueueEvent.silent =
      Settlement.pending ∧
    (pushToReplyIo worldPayloadFails "Norwalk.csv" (some 7) []).2 = Settlement.pending ∧
    (processCSVs worldPayloadFails ⟨"folder-2023-09", "2023-09", false⟩ []).2 =
      Settlement.pending ∧
    main worldPayloadFails "root" =
      [ Call.google_drive_auth, Call.drive_listFolders "root",
        Call.sql_checkFolders
          [⟨"folder-2023-09", "2023-09"⟩, ⟨"folder-2023-10", "2023-10"⟩],
        Call.processCSVs "folder-2023-09" "2023-09",
        Call.drive_listCSVFiles "folder-2023-09",
        Call.sql_checkFileExists "folder-2023-09" "file-1",
        Call.drive_downloadCsvAndFilterColumns "file-1" "Norwalk.csv",
        Call.CheckIfCampaignExists "2023-09_Norwalk.csv",
        Call.filterUniqueEmailsFromCSV "Norwalk.csv",
        Call.pushContacts [rowWithoutName] (some 7) ] ∧
    insertFolderCalls (main worldPayloadFails "root") = [] := by
  refine ⟨rfl, ?_, ?_, ?_, ?_, ?_, ?_⟩ <;> decide

/-! ## Theorems: row filter, idempotence -/

theorem setProp_of_lookup_none (props : List (String × String)) (column value : String)
    (h : props.lookup column = none) :
    setProp props column value = props ++ [(column, value)] := by
  induction props with
  | nil => rfl
  | cons p rest ih =>
    obtain ⟨c, v⟩ := p
    by_cases hc : column = c
    · subst hc
      simp [List.lookup] at h
    · have hb : (column == c) = false := by simp [hc]
      simp only [List.lookup, hb] at h
      simp [setProp, hb, ih h]

theorem lookup_append_filterMap_none (row : Row) (props : List (String × String))
    (columns : List String) (column : String)
    (h1 : props.lookup column = none) (h2 : column ∉ columns) :
    (props ++ columns.filterMap
      (fun c => (row.get c).map (fun value => (c, value)))).lookup column = none := by
  induction columns generalizing props with
  | nil => simpa using h1
  | cons c rest ih =>
    have hne : column ≠ c := fun e => h2 (e ▸ List.mem_cons_self _ _)
    have hrest : column ∉ rest := fun hm => h2 (List.mem_cons_of_mem _ hm)
    cases hv : row.get c with
    | none =>
      simpa [List.filterMap_cons, hv] using ih props h1 hrest
    | some value =>
      have hb : (column == c) = false := by simp [hne]
      have h1' : (props ++ [(c, value)]).lookup column = none := by
        induction props with
        | nil => simp [List.lookup, hb]
        | cons p ps ihp =>
          obtain ⟨k, v⟩ := p
          by_cases hk : column = k
          · subst hk; simp [List.lookup] at h1
          · have hkb : (column == k) = false := by simp [hk]
            simp only [List.lookup, hkb] at h1
            simp only [List.cons_append, List.lookup, hkb]
            exact ihp h1
      have := ih (props ++ [(c, value)]) h1' hrest
      simpa [List.filterMap_cons, hv, List.append_assoc] using this

theorem foldl_prune_eq (row : Row) (columns : List String) (acc : Row)
    (hnodup : columns.Nodup) (hacc : ∀ c ∈ columns, acc.props.lookup c = none) :
    columns.foldl
      (fun filteredRow column =>
        match row.get column with
        | some value => filteredRow.set column value
        | none => filteredRow) acc =
    ⟨acc.props ++ columns.filterMap (fun c => (row.get c).map (fun value => (c, value)))⟩ := by
  induction columns generalizing acc with
  | nil => simp
  | cons c rest ih =>
    have hc : c ∉ rest := (List.nodup_cons.1 hnodup).1
    have hrest : rest.Nodup := (List.nodup_cons.1 hnodup).2
    rw [List.foldl_cons]
    cases hv : row.get c with
    | none =>
      simp only [List.filterMap_cons, hv, Option.map_none']
      exact ih acc hrest (fun k hk => hacc k (List.mem_cons_of_mem _ hk))
    | some value =>
      simp only [List.filterMap_cons, hv, Option.map_some']
      have hset : acc.set c value = ⟨acc.props ++ [(c, value)]⟩ := by
        simp [Row.set, setProp_of_lookup_none acc.props c value (hacc c (List.mem_cons_self _ _))]
      rw [hset, ih _ hrest]
      · simp [List.append_assoc]
      · intro k hk
        have hkc : k ≠ c := fun e => hc (e ▸ hk)
        have hb : (k == c) = false := by simp [hkc]
        have h0 := hacc k (List.mem_cons_of_mem _ hk)
        show (acc.props ++ [(c, value)]).lookup k = none
        have := lookup_append_filterMap_none ⟨[(c, value)]⟩ acc.props [c] k h0
          (by simpa using hkc)
        simpa [Row.get, List.lookup] using this

theorem pruneColumns_eq (row : Row) :
    pruneColumns row =
      ⟨columnsToKeep.filterMap (fun c => (row.get c).map (fun value => (c, value)))⟩ := by
  unfold pruneColumns
  rw [foldl_prune_eq row columnsToKeep Row.empty (by decide) (fun _ _ => rfl)]
  simp [Row.empty]

theorem get_pruneColumns_of_mem (row : Row) (column : String) (h : column ∈ columnsToKeep) :
    (pruneColumns row).get column = row.get column := by
  cases hv : row.get column with
  | some value => exact (get_pruneColumns row column value).2 ⟨h, hv⟩
  | none =>
    cases hp : (pruneColumns row).get column with
    | none => rfl
    | some value =>
      have := ((get_pruneColumns row column value).1 hp).2
      rw [hv] at this
      cases this

theorem pruneColumns_idempotent (row : Row) :
    pruneColumns (pruneColumns row) = pruneColumns row := by
  rw [pruneColumns_eq (pruneColumns row), pruneColumns_eq row]
  congr 1
  apply List.filterMap_congr
  intro c hc
  rw [← pruneColumns_eq row, get_pruneColumns_of_mem row c hc]

theorem cityFilter_pruneColumns (toLowerCase : String → String) (row : Row) :
    cityFilter toLowerCase (pruneColumns row) = cityFilter toLowerCase row := by
  unfold cityFilter
  rw [get_pruneColumns_of_mem row "billingcity" (by decide)]

/-- C11: applying the row filter of `drive_downloadCsvAndFilterColumns` (city
    filter, then column pruning) to its own output yields the same list of
    rows, for every list of parsed rows. -/
theorem C11_row_filter_idempotent (toLowerCase : String → String) (parsedRows : List Row) :
    filteredData toLowerCase (filteredData toLowerCase parsedRows) =
      filteredData toLowerCase parsedRows := by
  unfold filteredData
  induction parsedRows with
  | nil => rfl
  | cons row rest ih =>
    by_cases h : cityFilter toLowerCase row = true
    · simp only [List.filter_cons, h, if_true, List.map_cons, cityFilter_pruneColumns,
        pruneColumns_idempotent]
      rw [ih]
    · simp only [List.filter_cons, h, if_false]
      exact ih

/-! ## Theorems: company names -/

/-- C12: `cleanCompanyName("Acme Consulting, LLC.")` is exactly
    `"Acme Consulting"`, for every `toLowerCase` that lower-cases ASCII text
    the way `String.prototype.toLowerCase` does. -/
theorem C12_acme_consulting (toLowerCase : String → String)
    (h : ∀ s : String, s.data.all (fun c => decide (c.val < 128)) = true →
      toLowerCase s = asciiLower s) :
    cleanCompanyName toLowerCase "Acme Consulting, LLC." = "Acme Consulting" := by
  have stripped :
      cleanCompanyName.patterns.foldl (fun cleanedName pattern =>
        replaceRegExp cleanedName pattern) "Acme Consulting, LLC.".data =
        "Acme Consulting.".data := by decide
  have cased : titleCase toLowerCase none "Acme Consulting.".data =
      'A' :: (toLowerCase "cme").data ++ ' ' :: 'C' :: (toLowerCase "onsulting.").data := by
    rfl
  have l1 : toLowerCase "cme" = "cme" := by rw [h "cme" (by decide)]; decide
  have l2 : toLowerCase "onsulting." = "onsulting." := by
    rw [h "onsulting." (by decide)]; decide
  unfold cleanCompanyName
  rw [stripped, cased, l1, l2]
  decide

/-- Witness of C12: ASCII lower-casing. -/
theorem C12_acme_consulting_witness :
    cleanCompanyName asciiLower "Acme Consulting, LLC." = "Acme Consulting" :=
  C12_acme_consulting asciiLower (fun _ _ => rfl)

/-- C13 (the code at the failing inputs): the patterns go through
    `new RegExp(pattern, "gi")`, where `.` matches any character, so the
    pattern " Ltd." also removes " Ltda" and " Ltd " (with the space that
    follows); the literal reference removes neither. -/
theorem C13_period_matches_any_character :
    cleanCompanyName asciiLower "Padaria Brasil Ltda" = "Padaria Brasil" ∧
    cleanCompanyName.literalReference asciiLower "Padaria Brasil Ltda" =
      "Padaria Brasil Ltda" ∧
    cleanCompanyName asciiLower "Acme Ltd Services" = "Acmeservices" ∧
    cleanCompanyName.literalReference asciiLower "Acme Ltd Services" = "Acme Ltd Services" ∧
    cleanCompanyName.literalReference asciiLower "Acme Consulting, LLC." =
      "Acme Consulting" := by
  decide

/-! ## Theorems: payloads -/

theorem contactData_ok (toLowerCase : String → String) (campaignId : Option Nat)
    (row : ClassifiedRow) (d : ContactData)
    (h : pushContacts.contactData toLowerCase campaignId row = Except.ok d) :
    d.email =
      (if (row.email_exists_in_db && !row.secondary_email_exists_in_db) = true then
        (if row.secondary_email_exists_in_db = true then some ""
          else if (row.row.get "business_email_address" ==
              row.row.get "category_survey_email_address") = true then some ""
          else row.row.get "category_survey_email_address")
      else row.row.get "business_email_address") ∧
    d.customField "Secondary Email" =
      (if (row.email_exists_in_db && !row.secondary_email_exists_in_db) = true then some ""
      else if row.secondary_email_exists_in_db = true then some ""
      else if (row.row.get "business_email_address" ==
          row.row.get "category_survey_email_address") = true then some ""
      else row.row.get "category_survey_email_address") := by
  unfold pushContacts.contactData at h
  cases hn : row.row.get "name" with
  | none => simp [hn] at h
  | some companyName =>
    simp only [hn, Except.ok.injEq] at h
    subst h
    constructor
    · by_cases hc : (row.email_exists_in_db && !row.secondary_email_exists_in_db) = true
      · simp only [hc, if_true]
      · simp only [hc, if_false]
        simp
    · simp only [ContactData.customField, List.find?, beq_self_eq_true]
      by_cases hc : (row.email_exists_in_db && !row.secondary_email_exists_in_db) = true
      · simp only [hc, if_true]
      · simp only [hc, if_false]
        simp

/-- C14: whenever `business_email_address` equals `category_survey_email_address`
    or `secondary_email_exists_in_db` is true, the "Secondary Email" custom
    field of the payload built for the row is the empty string. -/
theorem C14_secondary_email_cleared (toLowerCase : String → String) (campaignId : Option Nat)
    (row : ClassifiedRow) (d : ContactData)
    (h : pushContacts.contactData toLowerCase campaignId row = Except.ok d)
    (hclear : row.row.get "business_email_address" =
        row.row.get "category_survey_email_address" ∨
      row.secondary_email_exists_in_db = true) :
    d.customField "Secondary Email" = some "" := by
  rw [(contactData_ok toLowerCase campaignId row d h).2]
  rcases hclear with heq | hflag
  · have hb : (row.row.get "business_email_address" ==
        row.row.get "category_survey_email_address") = true := by simp [heq]
    simp [hb]
  · simp [hflag]

/-- C15 (amended): for a row with `email_exists_in_db` true and
    `secondary_email_exists_in_db` false, the "Secondary Email" field is empty
    and the email is the secondary address of the row when the two addresses
    differ, and the empty string when they are equal (line 128 clears the
    secondary address before line 134 promotes it); for a row with
    `email_exists_in_db` false, the email is `business_email_address`. -/
theorem C15_email_slot (toLowerCase : String → String) (campaignId : Option Nat)
    (row : ClassifiedRow) (d : ContactData)
    (h : pushContacts.contactData toLowerCase campaignId row = Except.ok d) :
    (row.email_exists_in_db = true → row.secondary_email_exists_in_db = false →
      row.row.get "business_email_address" ≠ row.row.get "category_survey_email_address" →
      d.email = row.row.get "category_survey_email_address" ∧
      d.customField "Secondary Email" = some "") ∧
    (row.email_exists_in_db = true → row.secondary_email_exists_in_db = false →
      row.row.get "business_email_address" = row.row.get "category_survey_email_address" →
      d.email = some "" ∧ d.customField "Secondary Email" = some "") ∧
    (row.email_exists_in_db = false → d.email = row.row.get "business_email_address") := by
  obtain ⟨hemail, hsecond⟩ := contactData_ok toLowerCase campaignId row d h
  refine ⟨?_, ?_, ?_⟩
  · intro h1 h2 hne
    have hb : (row.row.get "business_email_address" ==
        row.row.get "category_survey_email_address") = false := by simp [hne]
    rw [hemail, hsecond]
    simp [h1, h2, hb]
  · intro h1 h2 heq
    have hb : (row.row.get "business_email_address" ==
        row.row.get "category_survey_email_address") = true := by simp [heq]
    rw [hemail, hsecond]
    simp [h1, h2, hb]
  · intro h1
    rw [hemail]
    simp [h1]

/-- Witness of C14: a row whose secondary address is known. -/
theorem C14_secondary_email_cleared_witness :
    ∃ d, pushContacts.contactData asciiLower (some 7) rowKnownSecondary = Except.ok d ∧
      d.customField "Secondary Email" = some "" :=
  ⟨_, rfl, C14_secondary_email_cleared asciiLower (some 7) rowKnownSecondary _ rfl
    (Or.inr rfl)⟩

/-- C15 (as stated, refuted): a row with `email_exists_in_db` true,
    `secondary_email_exists_in_db` false and the same text in both address
    columns gets the empty string as email, not its secondary address. -/
theorem C15_same_address_gives_empty_email :
    rowSameAddressTwice.email_exists_in_db = true ∧
    rowSameAddressTwice.secondary_email_exists_in_db = false ∧
    rowSameAddressTwice.row.get "category_survey_email_address" = some "hello@birch.com" ∧
    ∃ d, pushContacts.contactData asciiLower (some 7) rowSameAddressTwice = Except.ok d ∧
      d.email = some "" ∧
      d.email ≠ rowSameAddressTwice.row.get "category_survey_email_address" :=
  ⟨rfl, rfl, by decide, _, rfl, by decide, by decide⟩

/-- Witness of C15 (amended): a row whose primary address is known and whose
    secondary address is new and different. -/
theorem C15_email_slot_witness :
    ∃ d, pushContacts.contactData asciiLower (some 7) rowKnownPrimary = Except.ok d ∧
      d.email = some "orders@birch.com" ∧ d.customField "Secondary Email" = some "" :=
  ⟨_, rfl,
    (C15_email_slot asciiLower (some 7) rowKnownPrimary _ rfl).1 rfl rfl (by decide)⟩

/-! ## Theorems: serial dispatch -/

theorem failedAttempts_succ (d : ContactData) (k : Nat) :
    failedAttempts d (k + 1) =
      DispatchEvent.push d :: DispatchEvent.delay 11000 :: failedAttempts d k := by
  simp [failedAttempts, List.replicate_succ]

theorem pushCount_append (l1 l2 : List DispatchEvent) :
    pushCount (l1 ++ l2) = pushCount l1 + pushCount l2 := by
  simp [pushCount, List.filter_append]

theorem insertContactCount_append (l1 l2 : List DispatchEvent) :
    insertContactCount (l1 ++ l2) = insertContactCount l1 + insertContactCount l2 := by
  simp [insertContactCount, List.filter_append]

theorem delayCount_append (l1 l2 : List DispatchEvent) :
    delayCount (l1 ++ l2) = delayCount l1 + delayCount l2 := by
  simp [delayCount, List.filter_append]

theorem callbacks_append (l1 l2 : List DispatchEvent) :
    callbacks (l1 ++ l2) = callbacks l1 ++ callbacks l2 := by
  simp [callbacks, List.filterMap_append]

theorem pushedPayloads_append (l1 l2 : List DispatchEvent) :
    pushedPayloads (l1 ++ l2) = pushedPayloads l1 ++ pushedPayloads l2 := by
  simp [pushedPayloads, List.filterMap_append]

theorem failedAttempts_counts (d : ContactData) (k : Nat) :
    pushCount (failedAttempts d k) = k ∧
    insertContactCount (failedAttempts d k) = 0 ∧
    delayCount (failedAttempts d k) = k ∧
    callbacks (failedAttempts d k) = [] ∧
    pushedPayloads (failedAttempts d k) = List.replicate k d := by
  induction k with
  | zero => simp [failedAttempts, pushCount, insertContactCount, delayCount, callbacks,
      pushedPayloads]
  | succ k ih =>
    obtain ⟨h1, h2, h3, h4, h5⟩ := ih
    rw [failedAttempts_succ]
    refine ⟨?_, ?_, ?_, ?_, ?_⟩
    · simpa [pushCount] using h1
    · simpa [insertContactCount] using h2
    · simpa [delayCount] using h3
    · simpa [callbacks] using h4
    · simpa [pushedPayloads, List.replicate_succ] using h5

/-- Every run of `makeAPICall` is a number of failed attempts followed by a
    successful one or by the attempt whose error is reported. -/
theorem makeAPICall_shape (service : Nat → PushResult) (d : ContactData) (r calls : Nat) :
    ∃ k, k ≤ r ∧
      (∀ j, j < k → ∃ error, service (calls + j) = PushResult.rejected error ∧
        includes error "Contact is already in this sequence" = false) ∧
      ((service (calls + k) = PushResult.resolved ∧
          makeAPICall service d r calls =
            failedAttempts d k ++
              [ DispatchEvent.push d,
                DispatchEvent.insertContact d.company d.email
                  (d.customField "Mailing address") (d.customField "Secondary Email"),
                DispatchEvent.delay 11000,
                DispatchEvent.cb none ]) ∨
        (∃ error, service (calls + k) = PushResult.rejected error ∧
          (includes error "Contact is already in this sequence" = true ∨ k = r) ∧
          makeAPICall service d r calls =
            failedAttempts d k ++ [DispatchEvent.push d, DispatchEvent.cb (some error)])) := by
  induction r generalizing calls with
  | zero =>
    refine ⟨0, Nat.le_refl _, fun j hj => absurd hj (Nat.not_lt_zero _), ?_⟩
    cases h : service calls with
    | resolved =>
      left
      exact ⟨h, by rw [makeAPICall_resolved service d 0 calls h]; rfl⟩
    | rejected error =>
      right
      exact ⟨error, h, Or.inr rfl, by rw [makeAPICall_exhausted service d calls error h]; rfl⟩
  | succ r ih =>
    cases h : service calls with
    | resolved =>
      refine ⟨0, Nat.zero_le _, fun j hj => absurd hj (Nat.not_lt_zero _), Or.inl ⟨h, ?_⟩⟩
      rw [makeAPICall_resolved service d (r + 1) calls h]; rfl
    | rejected error =>
      cases hm : includes error "Contact is already in this sequence" with
      | true =>
        refine ⟨0, Nat.zero_le _, fun j hj => absurd hj (Nat.not_lt_zero _),
          Or.inr ⟨error, h, Or.inl hm, ?_⟩⟩
        rw [makeAPICall_terminal service d r calls error h hm]; rfl
      | false =>
        obtain ⟨k, hk, hfail, hend⟩ := ih (calls + 1)
        have hidx : ∀ j, calls + 1 + j = calls + (j + 1) := fun j => by omega
        refine ⟨k + 1, Nat.succ_le_succ hk, ?_, ?_⟩
        · intro j hj
          cases j with
          | zero => exact ⟨error, h, hm⟩
          | succ j =>
            have := hfail j (Nat.lt_of_succ_lt_succ hj)
            rwa [hidx] at this
        · rw [makeAPICall_retry service d r calls error h hm, failedAttempts_succ]
          rcases hend with ⟨hres, hrun⟩ | ⟨e, hrej, hwhy, hrun⟩
          · left
            rw [hidx] at hres
            exact ⟨hres, by rw [hrun]; rfl⟩
          · right
            rw [hidx] at hrej
            refine ⟨e, hrej, ?_, by rw [hrun]; rfl⟩
            rcases hwhy with hw | hw
            · exact Or.inl hw
            · exact Or.inr (by rw [hw])

theorem worker_outcomes (service : Nat → PushResult) (d : ContactData) (calls : Nat) :
    (∃ k, k ≤ maxRetries ∧ service (calls + k) = PushResult.resolved ∧
      pushContacts.worker service d calls =
        failedAttempts d k ++
          [ DispatchEvent.push d,
            DispatchEvent.insertContact d.company d.email
              (d.customField "Mailing address") (d.customField "Secondary Email"),
            DispatchEvent.delay 11000,
            DispatchEvent.cb none ] ∧
      insertContactCount (pushContacts.worker service d calls) = 1 ∧
      callbacks (pushContacts.worker service d calls) = [none]) ∨
    (∃ k error, k ≤ maxRetries ∧ service (calls + k) = PushResult.rejected error ∧
      pushContacts.worker service d calls =
        failedAttempts d k ++ [DispatchEvent.push d, DispatchEvent.cb (some error)] ∧
      insertContactCount (pushContacts.worker service d calls) = 0 ∧
      callbacks (pushContacts.worker service d calls) = [some error]) := by
  obtain ⟨k, hk, _, hend⟩ := makeAPICall_shape service d maxRetries calls
  obtain ⟨_, hins, _, hcb, _⟩ := failedAttempts_counts d k
  rcases hend with ⟨hres, hrun⟩ | ⟨error, hrej, _, hrun⟩
  · left
    refine ⟨k, hk, hres, hrun, ?_, ?_⟩
    · unfold pushContacts.worker
      rw [hrun, insertContactCount_append, hins]; rfl
    · unfold pushContacts.worker
      rw [hrun, callbacks_append, hcb]; rfl
  · right
    refine ⟨k, error, hk, hrej, hrun, ?_, ?_⟩
    · unfold pushContacts.worker
      rw [hrun, insertContactCount_append, hins]; rfl
    · unfold pushContacts.worker
      rw [hrun, callbacks_append, hcb]; rfl

/-- C18: a task ends in one of two ways. Either some attempt resolves: then
    `insertContact` is called exactly once, right after the push that
    resolved, and the task ends with `cb(null)`. Or the task ends with
    `cb(error)` (terminal skip or retries exhausted): then `insertContact` is
    not called. The failed attempts before the last one never call it, and
    over a whole queue the number of `insertContact` calls is the number of
    tasks that ended with `cb(null)`. -/
theorem C18_insertContact_only_after_success (service : Nat → PushResult)
    (d : ContactData) (calls : Nat) (tasks : List ContactData) :
    ((∃ k, k ≤ maxRetries ∧ service (calls + k) = PushResult.resolved ∧
        pushContacts.worker service d calls =
          failedAttempts d k ++
            [ DispatchEvent.push d,
              DispatchEvent.insertContact d.company d.email
                (d.customField "Mailing address") (d.customField "Secondary Email"),
              DispatchEvent.delay 11000,
              DispatchEvent.cb none ] ∧
        insertContactCount (pushContacts.worker service d calls) = 1 ∧
        callbacks (pushContacts.worker service d calls) = [none]) ∨
      (∃ k error, k ≤ maxRetries ∧ service (calls + k) = PushResult.rejected error ∧
        pushContacts.worker service d calls =
          failedAttempts d k ++ [DispatchEvent.push d, DispatchEvent.cb (some error)] ∧
        insertContactCount (pushContacts.worker service d calls) = 0 ∧
        callbacks (pushContacts.worker service d calls) = [some error])) ∧
    (∀ k, insertContactCount (failedAttempts d k) = 0) ∧
    insertContactCount (pushContacts.queue service calls tasks) =
      (callbacks (pushContacts.queue service calls tasks)).count none := by
  refine ⟨worker_outcomes service d calls, fun k => (failedAttempts_counts d k).2.1, ?_⟩
  induction tasks generalizing calls with
  | nil => rfl
  | cons t rest ih =>
    rw [pushContacts.queue, insertContactCount_append, callbacks_append, List.count_append, ih]
    congr 1
    rcases worker_outcomes service t calls with ⟨_, _, _, _, h1, h2⟩ | ⟨_, _, _, _, _, h1, h2⟩
    · rw [h1, h2]; rfl
    · rw [h1, h2]; simp

/-- C19: the trace of `pushContacts` splits into consecutive segments, one
    per task in row order. All calls of the push capability in a segment
    carry the payload of that task (between 1 and 4 of them), and the segment
    ends with the only `cb` of the task, after all its calls: so every call
    for a task, retries included, comes before the first call for the next
    task. The tasks are the payloads of the rows, in row order. -/
theorem C19_serial_dispatch (service : Nat → PushResult) (toLowerCase : String → String)
    (uniqueRows : List ClassifiedRow) (campaignId : Option Nat) :
    ∃ segments : List (List DispatchEvent),
      pushContacts service toLowerCase uniqueRows campaignId = segments.flatten ∧
      List.Forall₂
        (fun contactData segment =>
          pushedPayloads segment = List.replicate (pushCount segment) contactData ∧
          1 ≤ pushCount segment ∧ pushCount segment ≤ maxRetries + 1 ∧
          ∃ attempts result,
            segment = attempts ++ [DispatchEvent.cb result] ∧ callbacks attempts = [] ∧
            pushCount attempts = pushCount segment)
        (pushContacts.tasks toLowerCase campaignId uniqueRows) segments ∧
      List.Forall₂
        (fun row contactData =>
          pushContacts.contactData toLowerCase campaignId row = Except.ok contactData)
        (uniqueRows.take (pushContacts.tasks toLowerCase campaignId uniqueRows).length)
        (pushContacts.tasks toLowerCase campaignId uniqueRows) := by
  have hseg : ∀ (tasks : List ContactData) (calls : Nat),
      ∃ segments : List (List DispatchEvent),
        pushContacts.queue service calls tasks = segments.flatten ∧
        List.Forall₂
          (fun contactData segment =>
            pushedPayloads segment = List.replicate (pushCount segment) contactData ∧
            1 ≤ pushCount segment ∧ pushCount segment ≤ maxRetries + 1 ∧
            ∃ attempts result,
              segment = attempts ++ [DispatchEvent.cb result] ∧ callbacks attempts = [] ∧
              pushCount attempts = pushCount segment)
          tasks segments := by
    intro tasks
    induction tasks with
    | nil => intro _; exact ⟨[], rfl, List.Forall₂.nil⟩
    | cons d rest ih =>
      intro calls
      obtain ⟨segments, hq, hall⟩ :=
        ih (calls + pushCount (pushContacts.worker service d calls))
      refine ⟨pushContacts.worker service d calls :: segments, ?_, List.Forall₂.cons ?_ hall⟩
      · rw [pushContacts.queue, hq, List.flatten_cons]
      · rcases worker_outcomes service d calls with
          ⟨k, hk, _, hrun, _, _⟩ | ⟨k, error, hk, _, hrun, _, _⟩
        · have hcount : pushCount (pushContacts.worker service d calls) = k + 1 := by
            rw [hrun, pushCount_append, (failedAttempts_counts d k).1]; rfl
          refine ⟨?_, by omega, by omega, ?_⟩
          · rw [hcount, hrun, pushedPayloads_append, (failedAttempts_counts d k).2.2.2.2,
              List.replicate_succ']
            rfl
          · refine ⟨failedAttempts d k ++
                [ DispatchEvent.push d,
                  DispatchEvent.insertContact d.company d.email
                    (d.customField "Mailing address") (d.customField "Secondary Email"),
                  DispatchEvent.delay 11000 ], none, ?_, ?_, ?_⟩
            · rw [hrun]; simp
            · rw [callbacks_append, (failedAttempts_counts d k).2.2.2.1]; rfl
            · rw [hcount, pushCount_append, (failedAttempts_counts d k).1]; rfl
        · have hcount : pushCount (pushContacts.worker service d calls) = k + 1 := by
            rw [hrun, pushCount_append, (failedAttempts_counts d k).1]; rfl
          refine ⟨?_, by omega, by omega, ?_⟩
          · rw [hcount, hrun, pushedPayloads_append, (failedAttempts_counts d k).2.2.2.2,
              List.replicate_succ']
            rfl
          · refine ⟨failedAttempts d k ++ [DispatchEvent.push d], some error, ?_, ?_, ?_⟩
            · rw [hrun]; simp
            · rw [callbacks_append, (failedAttempts_counts d k).2.2.2.1]; rfl
            · rw [hcount, pushCount_append, (failedAttempts_counts d k).1]; rfl
  have htasks : List.Forall₂
      (fun row contactData =>
        pushContacts.contactData toLowerCase campaignId row = Except.ok contactData)
      (uniqueRows.take (pushContacts.tasks toLowerCase campaignId uniqueRows).length)
      (pushContacts.tasks toLowerCase campaignId uniqueRows) := by
    induction uniqueRows with
    | nil => exact List.Forall₂.nil
    | cons row rest ih =>
      rw [pushContacts.tasks]
      cases h : pushContacts.contactData toLowerCase campaignId row with
      | error e => exact List.Forall₂.nil
      | ok contactData =>
        simp only [List.length_cons, List.take_succ_cons]
        exact List.Forall₂.cons h ih
  obtain ⟨segments, hq, hall⟩ :=
    hseg (pushContacts.tasks toLowerCase campaignId uniqueRows) 0
  exact ⟨segments, hq, hall, htasks⟩

/-! ## Theorems: API errors, campaign lookup, classifier promise -/

/-- C16 (the code at the failing input): for a campaign whose name contains
    "Campaign not found", a lookup answered with an HTTP 500 is returned as
    `false` (not found), because the name is part of the error text that
    `CheckIfCampaignExists` searches; for another name the same failure is
    thrown. -/
theorem C16_server_error_returned_as_not_found :
    CheckIfCampaignExists (Except.error serverErrorResponse)
      "Campaign not found_Norwalk.csv" = Except.ok CampaignResult.notFound ∧
    getCampaignDetailsByName (Except.error serverErrorResponse)
      "Campaign not found_Norwalk.csv" =
      Except.error ("An error occurred while fetching campaign details for " ++
        "Campaign not found_Norwalk.csv: " ++
        "Status code: 500 - Internal Server Error. Please try again later.") ∧
    CheckIfCampaignExists (Except.error serverErrorResponse) "2023-09_Norwalk.csv" =
      Except.error ("An error occurred while checking if campaign exists: " ++
        "An error occurred while fetching campaign details for 2023-09_Norwalk.csv: " ++
        "Status code: 500 - Internal Server Error. Please try again later.") :=
  ⟨rfl, rfl, rfl⟩

/-- C17 (the code at the failing input): in a batch of two rows in which the
    queries of the second row fail, the promise is not rejected: it resolves
    with the first row when the queue emits "drain", and stays pending
    otherwise; the failed row is left out. Once the file was read and parsed,
    no answer of the store makes the promise reject. -/
theorem C17_lookup_failure_does_not_reject :
    (emailCheckWorker (lookupSecondRowFails 1) rowTwoAddresses).outcome =
      WorkerOutcome.failed "Error: read ECONNRESET" ∧
    filterUniqueEmailsFromCSV.promise (Except.ok sampleRows) true lookupSecondRowFails =
      Settlement.resolved [⟨rowNewPrimary, false, true⟩] ∧
    filterUniqueEmailsFromCSV.promise (Except.ok sampleRows) false lookupSecondRowFails =
      Settlement.pending ∧
    (∀ (parsedRows : List Row) (drain : Bool) (lookups : Nat → Lookup) (error : String),
      filterUniqueEmailsFromCSV.promise (Except.ok parsedRows) drain lookups ≠
        Settlement.rejected error) := by
  refine ⟨by decide, by decide, by decide, ?_⟩
  intro parsedRows drain lookups error
  cases drain <;> simp [filterUniqueEmailsFromCSV.promise]

/-- C20 (as stated, refuted): the statuses 503 and 418 take the same branch of
    the `switch`, the default one, and get the same message around the
    status number; a 5xx status other than 500 has no kind of its own. -/
theorem C20_other_5xx_share_the_default_kind :
    handleApiError.kind 503 = handleApiError.kind 418 ∧
    handleApiError.kind 503 = MessageKind.unexpectedError ∧
    handleApiError ⟨some ⟨503, "null"⟩⟩ = "Status code: 503 - Unexpected error: null" ∧
    handleApiError ⟨some ⟨418, "null"⟩⟩ = "Status code: 418 - Unexpected error: null" := by
  decide

/-- C20 (amended): each of the statuses 400, 401, 403, 404 and 500 gets a
    message kind that no other status gets; every other status, the 5xx
    statuses other than 500 included, gets the kind of the default branch. -/
theorem C20_listed_statuses_distinguished (status other : Nat)
    (hlisted : status = 400 ∨ status = 401 ∨ status = 403 ∨ status = 404 ∨ status = 500)
    (hother : other ≠ status) :
    handleApiError.kind status ≠ handleApiError.kind other ∧
    handleApiError.kind status ≠ MessageKind.unexpectedError ∧
    (∀ s, s ≠ 400 → s ≠ 401 → s ≠ 403 → s ≠ 404 → s ≠ 500 →
      handleApiError.kind s = MessageKind.unexpectedError) := by
  refine ⟨?_, ?_, ?_⟩
  · rcases hlisted with h | h | h | h | h <;> subst h <;>
      unfold handleApiError.kind <;> (repeat' split) <;> simp_all
  · rcases hlisted with h | h | h | h | h <;> subst h <;> decide
  · intro s h1 h2 h3 h4 h5
    simp [handleApiError.kind, h1, h2, h3, h4, h5]

/-- Witness of C20 (amended): 404 against 400. -/
theorem C20_listed_statuses_distinguished_witness :
    handleApiError.kind 404 ≠ handleApiError.kind 400 ∧
    handleApiError.kind 404 ≠ MessageKind.unexpectedError :=
  ⟨(C20_listed_statuses_distinguished 404 400 (by decide) (by decide)).1,
    (C20_listed_statuses_distinguished 404 400 (by decide) (by decide)).2.1⟩

/-! ## Theorems: create failure, marker table -/

/-- C21: when the campaign of an unprocessed file is not found and
    `CreateNewCampaign` fails, the turn of the loop of `processCSVs` for that
    file ends there: after the single `CreateNewCampaign` call there is no
    classification, no dispatch, no `sql_insertProcessedFile` and no second
    create call, and the loop goes on with the remaining files of the folder. -/
theorem C21_create_failure_aborts_the_file (w : World) (folder : Folder) (file : DriveItem)
    (rest : List DriveItem) (t : Trace) (error : String)
    (hcheck : w.sql_checkFileExists t folder.id file.id = Except.ok false)
    (hdownload : w.downloadAndFilter (t ++ [Call.sql_checkFileExists folder.id file.id])
      file.id file.name = Except.ok ())
    (hlookup : w.CheckIfCampaignExists
      (t ++ [Call.sql_checkFileExists folder.id file.id] ++
        [Call.drive_downloadCsvAndFilterColumns file.id file.name])
      (folder.name ++ "_" ++ file.name) = Except.ok CampaignResult.notFound)
    (hcreate : w.CreateNewCampaign
      (t ++ [Call.sql_checkFileExists folder.id file.id] ++
        [Call.drive_downloadCsvAndFilterColumns file.id file.name] ++
        [Call.CheckIfCampaignExists (folder.name ++ "_" ++ file.name)])
      (folder.name ++ "_" ++ file.name) = Except.error error) :
    processCSVs.tryFile w folder file t =
      (t ++ [ Call.sql_checkFileExists folder.id file.id,
              Call.drive_downloadCsvAndFilterColumns file.id file.name,
              Call.CheckIfCampaignExists (folder.name ++ "_" ++ file.name),
              Call.CreateNewCampaign (folder.name ++ "_" ++ file.name) ],
        Settlement.rejected ("Error: Failed to create a new campaign: " ++ error)) ∧
    processCSVs.file w folder file t =
      t ++ [ Call.sql_checkFileExists folder.id file.id,
             Call.drive_downloadCsvAndFilterColumns file.id file.name,
             Call.CheckIfCampaignExists (folder.name ++ "_" ++ file.name),
             Call.CreateNewCampaign (folder.name ++ "_" ++ file.name) ] ∧
    (file :: rest).foldl (fun trace f => processCSVs.file w folder f trace) t =
      rest.foldl (fun trace f => processCSVs.file w folder f trace)
        (t ++ [ Call.sql_checkFileExists folder.id file.id,
                Call.drive_downloadCsvAndFilterColumns file.id file.name,
                Call.CheckIfCampaignExists (folder.name ++ "_" ++ file.name),
                Call.CreateNewCampaign (folder.name ++ "_" ++ file.name) ]) ∧
    processCSVs.files w folder (file :: rest) t =
      processCSVs.files w folder rest
        (t ++ [ Call.sql_checkFileExists folder.id file.id,
                Call.drive_downloadCsvAndFilterColumns file.id file.name,
                Call.CheckIfCampaignExists (folder.name ++ "_" ++ file.name),
                Call.CreateNewCampaign (folder.name ++ "_" ++ file.name) ]) := by
  have htry : processCSVs.tryFile w folder file t =
      (t ++ [ Call.sql_checkFileExists folder.id file.id,
              Call.drive_downloadCsvAndFilterColumns file.id file.name,
              Call.CheckIfCampaignExists (folder.name ++ "_" ++ file.name),
              Call.CreateNewCampaign (folder.name ++ "_" ++ file.name) ],
        Settlement.rejected ("Error: Failed to create a new campaign: " ++ error)) := by
    unfold processCSVs.tryFile
    simp only [hcheck]
    unfold drive_downloadCsvAndFilterColumns
    simp only [hdownload]
    unfold processCSVs.campaign
    simp only [hlookup, hcreate]
    simp
  have hfile : processCSVs.file w folder file t =
      t ++ [ Call.sql_checkFileExists folder.id file.id,
             Call.drive_downloadCsvAndFilterColumns file.id file.name,
             Call.CheckIfCampaignExists (folder.name ++ "_" ++ file.name),
             Call.CreateNewCampaign (folder.name ++ "_" ++ file.name) ] := by
    unfold processCSVs.file
    rw [htry]
  refine ⟨htry, hfile, ?_, ?_⟩
  · rw [List.foldl_cons, hfile]
  · rw [processCSVs.files, htry]

/-- Witness of C21: a folder with two files in a run in which creating a
    campaign fails; each file gets its own lookup and its single create call. -/
theorem C21_create_failure_aborts_the_file_witness :
    processCSVs.file worldCreateFails sampleFolder sampleFile [] =
      [ Call.sql_checkFileExists "folder-2023-09" "file-1",
        Call.drive_downloadCsvAndFilterColumns "file-1" "Norwalk.csv",
        Call.CheckIfCampaignExists "2023-09_Norwalk.csv",
        Call.CreateNewCampaign "2023-09_Norwalk.csv" ] ∧
    [sampleFile, sampleFile2].foldl
        (fun trace f => processCSVs.file worldCreateFails sampleFolder f trace) [] =
      [ Call.sql_checkFileExists "folder-2023-09" "file-1",
        Call.drive_downloadCsvAndFilterColumns "file-1" "Norwalk.csv",
        Call.CheckIfCampaignExists "2023-09_Norwalk.csv",
        Call.CreateNewCampaign "2023-09_Norwalk.csv",
        Call.sql_checkFileExists "folder-2023-09" "file-2",
        Call.drive_downloadCsvAndFilterColumns "file-2" "Darien.csv",
        Call.CheckIfCampaignExists "2023-09_Darien.csv",
        Call.CreateNewCampaign "2023-09_Darien.csv" ] :=
  ⟨(C21_create_failure_aborts_the_file worldCreateFails sampleFolder sampleFile
      [sampleFile2] [] _ rfl rfl rfl rfl).2.1,
    by decide⟩

/-- C26: for a folder reported as processed the turn of the loop of `main`
    still calls `sql_insertFolder`, whatever the collaborators answer; the
    calls of `sql_insertFolder` of a run of `main` are those for a first part
    of `chk_folders`, in order, and, when every promise of the run settles or
    every folder is reported as processed, those for all of `chk_folders`,
    one per folder, none skipped; and a call
    whose INSERT succeeds adds one more row for the folder to the marker
    table. -/
theorem C26_processed_folder_marked_again (w : World) (t : Trace) (folder : Folder)
    (hfolder : folder.processed = true)
    (chk_folders : List Folder) (hmem : folder ∈ chk_folders)
    (SOTS_folderId : String) (mainFolders : List DriveItem)
    (hauth : w.google_drive_auth [] = Except.ok ())
    (hlist : w.drive_listFolders [Call.google_drive_auth] SOTS_folderId = Except.ok mainFolders)
    (hcheck : w.sql_checkFolders
      [Call.google_drive_auth, Call.drive_listFolders SOTS_folderId] mainFolders =
        Except.ok chk_folders)
    (table : MainFolders) :
    main.folder w folder t = t ++ [Call.sql_insertFolder folder.id folder.name] ∧
    main.tryFolder w folder t = main.markFolder w folder t ∧
    (∃ k, insertFolderCalls (main w SOTS_folderId) =
      (chk_folders.take k).map (fun f => (f.id, f.name))) ∧
    (w.settles ∨ (∀ f, f ∈ chk_folders → f.processed = true) →
      insertFolderCalls (main w SOTS_folderId) =
        chk_folders.map (fun f => (f.id, f.name)) ∧
      (insertFolderCalls (main w SOTS_folderId)).length = chk_folders.length ∧
      (folder.id, folder.name) ∈ insertFolderCalls (main w SOTS_folderId)) ∧
    sql_insertFolder table folder.id folder.name none =
      (Settlement.resolved (), table ++ [(folder.id, folder.name)]) ∧
    (sql_insertFolder table folder.id folder.name none).2.length = table.length + 1 := by
  have hrun : main w SOTS_folderId =
      main.folders w chk_folders
        [Call.google_drive_auth, Call.drive_listFolders SOTS_folderId,
          Call.sql_checkFolders mainFolders] := by
    unfold main
    simp only [hauth, hlist, hcheck, List.singleton_append, List.cons_append, List.nil_append]
  refine ⟨folder_of_processed w folder t hfolder, tryFolder_of_processed w folder t hfolder,
    ?_, ?_, rfl, ?_⟩
  · obtain ⟨k, hk⟩ := insertFolderCalls_folders_prefix w chk_folders
      [Call.google_drive_auth, Call.drive_listFolders SOTS_folderId,
        Call.sql_checkFolders mainFolders]
    exact ⟨k, by rw [hrun, hk]; simp [insertFolderCalls]⟩
  · intro hw
    have hmain : insertFolderCalls (main w SOTS_folderId) =
        chk_folders.map (fun f => (f.id, f.name)) := by
      rcases hw with hw | hall
      · rw [hrun, insertFolderCalls_folders w hw]
        simp [insertFolderCalls]
      · rw [hrun, folders_of_processed w chk_folders hall, insertFolderCalls_map]
        simp [insertFolderCalls]
    refine ⟨hmain, ?_, ?_⟩
    · rw [hmain, List.length_map]
    · rw [hmain]
      exact List.mem_map.2 ⟨folder, hmem, rfl⟩
  · simp [sql_insertFolder]

/-- Witness of C26: a run whose only folder is reported as processed, with
    a marker table that already holds its row. -/
theorem C26_processed_folder_marked_again_witness :
    main worldFolderProcessed "root" =
      [ Call.google_drive_auth, Call.drive_listFolders "root",
        Call.sql_checkFolders [⟨"folder-2023-09", "2023-09"⟩],
        Call.sql_insertFolder "folder-2023-09" "2023-09" ] ∧
    (sql_insertFolder [("folder-2023-09", "2023-09")] "folder-2023-09" "2023-09" none).2 =
      [("folder-2023-09", "2023-09"), ("folder-2023-09", "2023-09")] ∧
    ("folder-2023-09", "2023-09") ∈ insertFolderCalls (main worldFolderProcessed "root") :=
  ⟨by decide, by decide,
    ((C26_processed_folder_marked_again worldFolderProcessed []
      ⟨"folder-2023-09", "2023-09", true⟩ rfl [⟨"folder-2023-09", "2023-09", true⟩]
      (List.mem_singleton.2 rfl) "root" [⟨"folder-2023-09", "2023-09"⟩] rfl rfl rfl
      [("folder-2023-09", "2023-09")]).2.2.2.1
        (Or.inl
          ⟨fun _ _ h => Settlement.noConfusion h, fun _ _ _ h => Settlement.noConfusion h⟩)).2.2⟩

/-! ## Theorems: insert outcome, timers -/

theorem makeAPICall_succeeds_at (service : Nat → PushResult) (d : ContactData) (k : Nat) :
    ∀ (r calls : Nat), k ≤ r →
      (∀ j, j < k → ∃ error, service (calls + j) = PushResult.rejected error ∧
        includes error "Contact is already in this sequence" = false) →
      service (calls + k) = PushResult.resolved →
      makeAPICall service d r calls =
        failedAttempts d k ++
          [ DispatchEvent.push d,
            DispatchEvent.insertContact d.company d.email
              (d.customField "Mailing address") (d.customField "Secondary Email"),
            DispatchEvent.delay 11000,
            DispatchEvent.cb none ] := by
  induction k with
  | zero =>
    intro r calls _ _ hres
    rw [makeAPICall_resolved service d r calls hres]
    rfl
  | succ k ih =>
    intro r calls hk hfail hres
    obtain ⟨error, h0, m0⟩ := hfail 0 (Nat.succ_pos k)
    cases r with
    | zero => exact absurd hk (Nat.not_succ_le_zero k)
    | succ r =>
      have hidx : ∀ j, calls + 1 + j = calls + (j + 1) := fun j => by omega
      rw [makeAPICall_retry service d r calls error h0 m0, failedAttempts_succ,
        ih r (calls + 1) (Nat.le_of_succ_le_succ hk)
          (fun j hj => by rw [hidx]; exact hfail (j + 1) (Nat.succ_lt_succ hj))
          (by rw [hidx]; exact hres)]
      rfl

theorem onHost_of_no_exception (host : UnhandledRejections) (service : Nat → PushResult)
    (store : Nat → Option String) (d : ContactData)
    (hquiet : host = UnhandledRejections.warn ∨ ∀ k, store k = none) :
    ∀ (r calls inserts : Nat),
      makeAPICall.onHost host service store d r calls inserts =
        { events := makeAPICall service d r calls, uncaughtException := none } := by
  have hbranch : ∀ inserts,
      makeAPICall.onPushResolved host d (insertContact (store inserts)) =
        { events :=
            [ DispatchEvent.insertContact d.company d.email
                (d.customField "Mailing address") (d.customField "Secondary Email"),
              DispatchEvent.delay 11000, DispatchEvent.cb none ]
          caught := none
          unhandled := (match store inserts with | some e => some e | none => none)
          uncaughtException := none } := by
    intro inserts
    rcases hquiet with h | h
    · subst h
      cases hs : store inserts <;> simp [makeAPICall.onPushResolved, insertContact]
    · rw [h inserts]
      simp [makeAPICall.onPushResolved, insertContact]
  intro r
  induction r with
  | zero =>
    intro calls inserts
    rw [makeAPICall.onHost, makeAPICall]
    cases hs : service calls with
    | resolved => simp only [hbranch]
    | rejected error => rfl
  | succ r ih =>
    intro calls inserts
    rw [makeAPICall.onHost, makeAPICall]
    cases hs : service calls with
    | resolved => simp only [hbranch]
    | rejected error =>
      simp only [ih]
      split <;> rfl

/-- On a host in mode `warn`, or with a store whose every INSERT succeeds,
    the queue on the host makes the events of `pushContacts.queue` and the
    process does not end. -/
theorem queueOnHost_of_no_exception (host : UnhandledRejections) (service : Nat → PushResult)
    (store : Nat → Option String)
    (hquiet : host = UnhandledRejections.warn ∨ ∀ k, store k = none)
    (tasks : List ContactData) :
    ∀ (calls inserts : Nat),
      pushContacts.queueOnHost host service store calls inserts tasks =
        { events := pushContacts.queue service calls tasks, uncaughtException := none } := by
  induction tasks with
  | nil => intro calls inserts; rfl
  | cons d rest ih =>
    intro calls inserts
    rw [pushContacts.queueOnHost, pushContacts.queue]
    simp only [onHost_of_no_exception host service store d hquiet, ih]
    rfl

/-- C22 (the code at the failing input): two tasks whose push resolves, with
    a store whose INSERT fails. The promise of `insertContact` rejects and no
    handler takes the rejection. On a host in mode `throw` the process ends
    during the first task: `cb` is never called, the second task is never
    handed to the worker, and the error is not caught by the `catch` of line
    72. On a host in mode `warn` both tasks end with `cb(null)`, as they do
    on either host when the INSERT succeeds. -/
theorem C22_failed_insert_ends_the_process :
    insertContact (storeRejectsInserts 0) =
      Settlement.rejected "Error: ER_DATA_TOO_LONG: Data too long for column 'name' at row 1" ∧
    makeAPICall.onPushResolved UnhandledRejections.throw sampleContact
        (insertContact (storeRejectsInserts 0)) =
      { events :=
          [ DispatchEvent.insertContact (some "Acme Consulting, LLC.") (some "owner@acme.com")
              (some "1 Main St, Norwalk, CT") (some ""),
            DispatchEvent.delay 11000 ]
        caught := none
        unhandled := some "Error: ER_DATA_TOO_LONG: Data too long for column 'name' at row 1"
        uncaughtException :=
          some "Error: ER_DATA_TOO_LONG: Data too long for column 'name' at row 1" } ∧
    pushContacts.queueOnHost UnhandledRejections.throw serviceAlwaysUp storeRejectsInserts 0 0
        [sampleContact, sampleContact2] =
      { events :=
          [ DispatchEvent.push sampleContact,
            DispatchEvent.insertContact (some "Acme Consulting, LLC.") (some "owner@acme.com")
              (some "1 Main St, Norwalk, CT") (some ""),
            DispatchEvent.delay 11000 ]
        uncaughtException :=
          some "Error: ER_DATA_TOO_LONG: Data too long for column 'name' at row 1" } ∧
    callbacks (pushContacts.queueOnHost UnhandledRejections.throw serviceAlwaysUp
      storeRejectsInserts 0 0 [sampleContact, sampleContact2]).events = [] ∧
    pushedPayloads (pushContacts.queueOnHost UnhandledRejections.throw serviceAlwaysUp
      storeRejectsInserts 0 0 [sampleContact, sampleContact2]).events = [sampleContact] ∧
    pushContacts.queueOnHost UnhandledRejections.throw serviceAlwaysUp storeAcceptsInserts 0 0
        [sampleContact, sampleContact2] =
      { events := pushContacts.queue serviceAlwaysUp 0 [sampleContact, sampleContact2]
        uncaughtException := none } ∧
    pushContacts.queueOnHost UnhandledRejections.warn serviceAlwaysUp storeRejectsInserts 0 0
        [sampleContact, sampleContact2] =
      { events := pushContacts.queue serviceAlwaysUp 0 [sampleContact, sampleContact2]
        uncaughtException := none } ∧
    callbacks (pushContacts.queue serviceAlwaysUp 0 [sampleContact, sampleContact2]) =
      [none, none] := by
  decide

/-- C23: every timer of a task is one of 11000 ms. Each failed attempt that
    is retried is followed by exactly one timer, then the retry; a resolved
    push is followed by `insertContact`, exactly one timer, then `cb(null)`;
    an attempt whose error is reported (terminal skip, or retries exhausted)
    is followed by `cb(error)` at once, with no timer. -/
theorem C23_delays (service : Nat → PushResult) (d : ContactData) (calls : Nat) :
    (∀ k, failedAttempts d (k + 1) =
      DispatchEvent.push d :: DispatchEvent.delay 11000 :: failedAttempts d k) ∧
    (∀ ms, DispatchEvent.delay ms ∈ pushContacts.worker service d calls → ms = 11000) ∧
    ∃ k, k ≤ maxRetries ∧
      (∀ j, j < k → ∃ error, service (calls + j) = PushResult.rejected error ∧
        includes error "Contact is already in this sequence" = false) ∧
      ((service (calls + k) = PushResult.resolved ∧
          pushContacts.worker service d calls =
            failedAttempts d k ++
              [ DispatchEvent.push d,
                DispatchEvent.insertContact d.company d.email
                  (d.customField "Mailing address") (d.customField "Secondary Email"),
                DispatchEvent.delay 11000,
                DispatchEvent.cb none ] ∧
          delayCount (pushContacts.worker service d calls) = k + 1) ∨
        (∃ error, service (calls + k) = PushResult.rejected error ∧
          (includes error "Contact is already in this sequence" = true ∨ k = maxRetries) ∧
          pushContacts.worker service d calls =
            failedAttempts d k ++ [DispatchEvent.push d, DispatchEvent.cb (some error)] ∧
          delayCount (pushContacts.worker service d calls) = k)) := by
  have hshape := makeAPICall_shape service d maxRetries calls
  have hmem : ∀ k ms, DispatchEvent.delay ms ∈ failedAttempts d k → ms = 11000 := by
    intro k
    induction k with
    | zero => intro ms h; simp [failedAttempts] at h
    | succ k ih =>
      intro ms h
      rw [failedAttempts_succ] at h
      simp only [List.mem_cons, DispatchEvent.delay.injEq, reduceCtorEq, false_or] at h
      rcases h with h | h
      · exact h
      · exact ih ms h
  refine ⟨failedAttempts_succ d, ?_, ?_⟩
  · intro ms h
    obtain ⟨k, _, _, hend⟩ := hshape
    unfold pushContacts.worker at h
    rcases hend with ⟨_, hrun⟩ | ⟨error, _, _, hrun⟩
    · rw [hrun, List.mem_append] at h
      rcases h with h | h
      · exact hmem k ms h
      · simp at h
        exact h
    · rw [hrun, List.mem_append] at h
      rcases h with h | h
      · exact hmem k ms h
      · simp at h
  · obtain ⟨k, hk, hfail, hend⟩ := hshape
    refine ⟨k, hk, hfail, ?_⟩
    rcases hend with ⟨hres, hrun⟩ | ⟨error, hrej, hwhy, hrun⟩
    · left
      refine ⟨hres, hrun, ?_⟩
      unfold pushContacts.worker
      rw [hrun, delayCount_append, (failedAttempts_counts d k).2.2.1]; rfl
    · right
      refine ⟨error, hrej, hwhy, hrun, ?_⟩
      unfold pushContacts.worker
      rw [hrun, delayCount_append, (failedAttempts_counts d k).2.2.1]; rfl

/-! ## Theorems: payload invariants -/

theorem resultEntry_empty (lookup : Lookup) (field : EmailField) (table : Table) :
    resultEntry lookup field table "" = true := by
  simp [resultEntry]

theorem containsPredefinedString_false_iff (email : String) :
    containsPredefinedString email = false ↔
      ∀ str, str ∈ predefinedStrings → includes email str = false := by
  unfold containsPredefinedString
  rw [List.any_eq_false]
  constructor
  · intro h str hstr
    simpa using h str hstr
  · intro h str hstr
    simpa using h str hstr

/-- C24: for a row that the worker emits, under a lookup that answers the
    same for an address whichever column it comes from, the email of the
    payload built for the row is a non-empty address of the row whose flag is
    false: the primary address, or the secondary one promoted to its place. -/
theorem C24_primary_slot_is_a_new_address (lookup : Lookup) (row : Row) (c : ClassifiedRow)
    (toLowerCase : String → String) (campaignId : Option Nat) (d : ContactData)
    (hdet : ∀ table email,
      lookup EmailField.business_email_address table email =
        lookup EmailField.category_survey_email_address table email)
    (hrun : (emailCheckWorker lookup row).outcome = WorkerOutcome.classified c true)
    (hd : pushContacts.contactData toLowerCase campaignId c = Except.ok d) :
    ∃ address, d.email = some address ∧ address ≠ "" ∧
      ((row.get "business_email_address" = some address ∧ c.email_exists_in_db = false) ∨
       (row.get "category_survey_email_address" = some address ∧
         c.secondary_email_exists_in_db = false)) := by
  obtain ⟨businessEmail, categoryEmail, hb, hc, _, _, hrow, h1, h2, hp⟩ :=
    emailCheckWorker_classified lookup row c true hrun
  obtain ⟨hemail, _⟩ := contactData_ok toLowerCase campaignId c d hd
  rw [hrow, hb, hc] at hemail
  cases hf1 : c.email_exists_in_db with
  | false =>
    refine ⟨businessEmail, ?_, ?_, Or.inl ⟨hb, rfl⟩⟩
    · rw [hemail]; simp [hf1]
    · intro hempty
      rw [hf1, hempty, resultEntry_empty] at h1
      simp at h1
  | true =>
    have hf2 : c.secondary_email_exists_in_db = false := by
      cases h : c.secondary_email_exists_in_db with
      | false => rfl
      | true => rw [hf1, h] at hp; simp at hp
    have hne : businessEmail ≠ categoryEmail := by
      intro heq
      have : c.email_exists_in_db = c.secondary_email_exists_in_db := by
        rw [h1, h2, heq]
        simp only [resultEntry, hdet]
      rw [hf1, hf2] at this
      cases this
    refine ⟨categoryEmail, ?_, ?_, Or.inr ⟨hc, hf2⟩⟩
    · rw [hemail]; simp [hf1, hf2, hne]
    · intro hempty
      rw [hf2, hempty, resultEntry_empty] at h2
      simp at h2

/-- C25: for a row that the worker emits, the email and the "Secondary
    Email" field of the payload built for it are texts that contain none of
    the strings of `predefinedStrings` (a row with such an address is never
    emitted: its worker fails). -/
theorem C25_payload_has_no_blocklisted_address (lookup : Lookup) (row : Row)
    (c : ClassifiedRow) (toLowerCase : String → String) (campaignId : Option Nat)
    (d : ContactData)
    (hrun : (emailCheckWorker lookup row).outcome = WorkerOutcome.classified c true)
    (hd : pushContacts.contactData toLowerCase campaignId c = Except.ok d) :
    ∃ email secondary, d.email = some email ∧
      d.customField "Secondary Email" = some secondary ∧
      (∀ str, str ∈ predefinedStrings → includes email str = false) ∧
      (∀ str, str ∈ predefinedStrings → includes secondary str = false) := by
  obtain ⟨businessEmail, categoryEmail, hb, hc, hpb, hpc, hrow, _, _, _⟩ :=
    emailCheckWorker_classified lookup row c true hrun
  obtain ⟨hemail, hsecond⟩ := contactData_ok toLowerCase campaignId c d hd
  rw [hrow, hb, hc] at hemail hsecond
  have hempty : containsPredefinedString "" = false := by decide
  have key : ∀ (value : Option String),
      (value = some businessEmail ∨ value = some categoryEmail ∨ value = some "") →
      ∃ text, value = some text ∧
        ∀ str, str ∈ predefinedStrings → includes text str = false := by
    intro value h
    rcases h with h | h | h
    · exact ⟨businessEmail, h, (containsPredefinedString_false_iff _).1 hpb⟩
    · exact ⟨categoryEmail, h, (containsPredefinedString_false_iff _).1 hpc⟩
    · exact ⟨"", h, (containsPredefinedString_false_iff _).1 hempty⟩
  have he : d.email = some businessEmail ∨ d.email = some categoryEmail ∨
      d.email = some "" := by
    rw [hemail]
    repeat' split
    all_goals simp
  have hs : d.customField "Secondary Email" = some businessEmail ∨
      d.customField "Secondary Email" = some categoryEmail ∨
      d.customField "Secondary Email" = some "" := by
    rw [hsecond]
    repeat' split
    all_goals simp
  obtain ⟨email, hemail', hne⟩ := key _ he
  obtain ⟨secondary, hsecond', hns⟩ := key _ hs
  exact ⟨email, secondary, hemail', hsecond', hne, hns⟩

/-- Witness of C24: a row with a new primary address and no secondary one,
    under a store in which nothing is found. -/
theorem C24_primary_slot_is_a_new_address_witness :
    (emailCheckWorker lookupNothingFound rowNewPrimary).outcome =
      WorkerOutcome.classified ⟨rowNewPrimary, false, true⟩ true ∧
    ∃ d, pushContacts.contactData asciiLower (some 7) ⟨rowNewPrimary, false, true⟩ =
        Except.ok d ∧
      ∃ address, d.email = some address ∧ address ≠ "" ∧
        ((rowNewPrimary.get "business_email_address" = some address ∧
            (⟨rowNewPrimary, false, true⟩ : ClassifiedRow).email_exists_in_db = false) ∨
         (rowNewPrimary.get "category_survey_email_address" = some address ∧
            (⟨rowNewPrimary, false, true⟩ : ClassifiedRow).secondary_email_exists_in_db
              = false)) :=
  ⟨by decide, _, rfl,
    C24_primary_slot_is_a_new_address lookupNothingFound rowNewPrimary
      ⟨rowNewPrimary, false, true⟩ asciiLower (some 7) _ (fun _ _ => rfl) (by decide) rfl⟩

/-- Witness of C25: the same row and store. -/
theorem C25_payload_has_no_blocklisted_address_witness :
    ∃ d, pushContacts.contactData asciiLower (some 7) ⟨rowNewPrimary, false, true⟩ =
        Except.ok d ∧
      ∃ email secondary, d.email = some email ∧
        d.customField "Secondary Email" = some secondary ∧
        (∀ str, str ∈ predefinedStrings → includes email str = false) ∧
        (∀ str, str ∈ predefinedStrings → includes secondary str = false) :=
  ⟨_, rfl,
    C25_payload_has_no_blocklisted_address lookupNothingFound rowNewPrimary
      ⟨rowNewPrimary, false, true⟩ asciiLower (some 7) _ (by decide) rfl⟩

end ReplyIo
